import Mathlib

/-!
Shallow embedding of the JNI marshaling layer of the repository:
  jni/com_android_bluetooth_avrcp_controller.cpp
  jni/com_android_bluetooth_btservice_vendor.cpp

The native functions are pure marshaling shims over two external boundaries:
the JVM (JNI binding calls that may fail by returning a null pointer) and a
Bluetooth HAL reached through static interface pointers.  The embedding makes
both boundaries explicit:

* The static pointers of each translation unit form a small state record; a
  pointer is represented by a `Bool` (`true` = non-NULL).  Outbound command
  functions are state-passing: they return the (unchanged) state together with
  an effect record listing the HAL calls they performed, whether they threw an
  IOException via `jniThrowIOException`, and whether they dereferenced a NULL
  interface pointer.
* JNI binding calls that can return NULL (`NewByteArray`, `NewIntArray`,
  `NewObjectArray`, `NewStringUTF`, `GetByteArrayElements`,
  `GetIntArrayElements`, `GetStringUTFChars`, `CallObjectMethod` results) are
  modelled by oracle parameters: either an `Option` holding the pinned /
  allocated value, or a `Bool` success flag.  `CallbackEnv` validity is a
  `Bool` oracle as well.
* Native HAL structs (`btrc_player_app_attr_t`, `btrc_player_settings_t`,
  `btrc_element_attr_val_t`, `btrc_folder_items_t`, `LINK_KEY`) are records of
  `Nat` byte values / `String` texts; an array-with-count C parameter pair is
  embedded as a Lean list, and a fixed-size C array indexed by the code is
  embedded as a function `Nat → Nat`.
* Each native-to-Java callback returns the Java call it performed (method and
  marshaled arguments) as a value, or `none` / an aborted result when it
  returned without calling into Java.
-/

namespace BtJni

/-- C cast to `uint8_t` of a signed JNI integer value. -/
def uint8ofInt (i : Int) : Nat := (i % 256).toNat

/-- C cast to `uint16_t` of a signed JNI integer value. -/
def uint16ofInt (i : Int) : Nat := (i % 65536).toNat

/-- Embedding of `BT_STATUS_SUCCESS` from `bt_status_t`; only equality with it is observed
by this code, so statuses are plain `Nat` with success = 0. -/
def BT_STATUS_SUCCESS : Nat := 0

/-- Embedding of `BTRC_MAX_ELEM_ATTR_SIZE` from the external HAL header `hardware/bt_rc.h`
(the header is not part of this repository; the theorems about the guard are
independent of the concrete value). -/
def BTRC_MAX_ELEM_ATTR_SIZE : Int := 7

/-- Static state of `com_android_bluetooth_avrcp_controller.cpp`: the two HAL
interface pointers and the callback object global reference.  `true` means the
pointer is non-NULL. -/
structure AvrcpState where
  sBluetoothAvrcpInterface : Bool
  sBluetoothAvrcpVendorInterface : Bool
  sCallbacksObj : Bool
deriving DecidableEq

/-- Static state of `com_android_bluetooth_btservice_vendor.cpp`. -/
structure VendorState where
  sBluetoothVendorInterface : Bool
  mCallbacksObj : Bool
deriving DecidableEq

/-- One call made through a HAL interface pointer, with the marshaled
arguments as the C call passes them (after the C casts). -/
inductive HalCall where
  | send_pass_through_cmd (addr : List Int) (key_code key_state : Nat)
  | send_group_navigation_cmd (addr : List Int) (key_code key_state : Nat)
  | set_player_app_setting_cmd (addr : List Int) (num_attrib : Nat)
      (attr_ids attr_vals : List Nat)
  | set_volume_rsp (addr : List Int) (abs_vol label : Nat)
  | register_abs_vol_rsp (addr : List Int) (rsp_type : Int) (abs_vol label : Nat)
  | get_playback_state_cmd (addr : List Int)
  | get_now_playing_list_cmd (addr : List Int) (start finish : Int)
  | get_folder_list_cmd (addr : List Int) (start finish : Int)
  | get_player_list_cmd (addr : List Int) (start finish : Int)
  | change_folder_path_cmd (addr : List Int) (uid_counter : Nat) (direction : Nat)
      (uid : List Int)
  | play_item_cmd (addr : List Int) (scope : Nat) (uid : List Int) (uid_counter : Nat)
  | set_browsed_player_cmd (addr : List Int) (id : Nat)
  | set_addressed_player_cmd (addr : List Int) (id : Nat)
  | get_media_element_attributes_vendor (addr : List Int) (num_attr : Int)
      (attr : Option (List Int))
  | get_element_attributes_cmd (addr : List Int) (num_attr : Int)
      (attr : Option (List Int))
  | get_folder_items_vendor_cmd (addr : List Int) (scope : Int) (start finish : Int)
      (num_attr : Int) (attr : Option (List Int))
  | search_cmd (addr : List Int) (charset strLen : Nat) (search_pattern : Option String)
  | get_search_list_cmd (addr : List Int) (start items : Int)
  | add_to_now_playing_cmd (addr : List Int) (scope : Nat) (uid : List Int)
      (uid_counter : Nat)
  | get_item_attr_cmd (addr : List Int) (scope : Nat) (uid : List Int)
      (uid_counter : Nat) (num_attr : Int) (attr : Option (List Int))
  | get_num_of_items_cmd (addr : List Int) (scope : Nat)
  | fetch_player_app_setting (addr : List Int)
  | request_continuing_response_cmd (addr : List Int) (pdu_id : Nat)
  | abort_continuing_response_cmd (addr : List Int) (pdu_id : Nat)
  | disconnect (addr : List Int)
  | bredrcleanup
  | set_wifi_state (status : Bool)
  | get_profile_info (profile_id profile_info : Int)
  | get_link_key (addr : List Int)
deriving DecidableEq

/-- Observable effect of one outbound command native function: the HAL calls
performed, whether `jniThrowIOException` was called, whether a NULL interface
pointer was dereferenced, and the `jboolean` return value (for the functions
that return one). -/
structure OutboundEffect where
  halCalls : List HalCall
  threw : Bool
  nullDeref : Bool
  ret : Option Bool
deriving DecidableEq

/-- Embedding of `sendPassThroughCommandNative` (avrcp controller, lines 978-1001). -/
def sendPassThroughCommandNative (s : AvrcpState) (addrPin : Option (List Int))
    (key_code key_state : Int) (halStatus : Nat) : AvrcpState × OutboundEffect :=
  (s,
    if !s.sBluetoothAvrcpInterface then ⟨[], false, false, some false⟩
    else
      match addrPin with
      | none => ⟨[], true, false, some false⟩
      | some addr =>
        ⟨[HalCall.send_pass_through_cmd addr (uint8ofInt key_code) (uint8ofInt key_state)],
          false, false, some (decide (halStatus = BT_STATUS_SUCCESS))⟩)

/-- Embedding of `sendGroupNavigationCommandNative` (lines 1003-1027). -/
def sendGroupNavigationCommandNative (s : AvrcpState) (addrPin : Option (List Int))
    (key_code key_state : Int) (halStatus : Nat) : AvrcpState × OutboundEffect :=
  (s,
    if !s.sBluetoothAvrcpInterface then ⟨[], false, false, some false⟩
    else
      match addrPin with
      | none => ⟨[], true, false, some false⟩
      | some addr =>
        ⟨[HalCall.send_group_navigation_cmd addr (uint8ofInt key_code) (uint8ofInt key_state)],
          false, false, some (decide (halStatus = BT_STATUS_SUCCESS))⟩)

/-- Embedding of `setPlayerApplicationSettingValuesNative` (lines 1029-1076).  The
`new uint8_t[...]` allocations cannot return NULL (operator new throws), so
the `(!pAttrs) || (!pAttrsVal)` branch is dead and is not modelled.  The copy
loop runs for `i < num_attrib` with `num_attrib` a signed `jbyte`, so a
negative count copies nothing (`Int.toNat` clamps at 0). -/
def setPlayerApplicationSettingValuesNative (s : AvrcpState) (addrPin : Option (List Int))
    (num_attrib : Int) (attrPin attrValPin : Option (List Int)) (halStatus : Nat) :
    AvrcpState × OutboundEffect :=
  (s,
    if !s.sBluetoothAvrcpInterface then ⟨[], false, false, none⟩
    else
      match addrPin with
      | none => ⟨[], true, false, none⟩
      | some addr =>
        match attrPin, attrValPin with
        | some attr, some attr_val =>
          ⟨[HalCall.set_player_app_setting_cmd addr (uint8ofInt num_attrib)
              ((List.range num_attrib.toNat).map fun i => uint8ofInt (attr.getD i 0))
              ((List.range num_attrib.toNat).map fun i => uint8ofInt (attr_val.getD i 0))],
            false, false, none⟩
        | _, _ => ⟨[], true, false, none⟩)

/-- Embedding of `sendAbsVolRspNative` (lines 1078-1095). -/
def sendAbsVolRspNative (s : AvrcpState) (addrPin : Option (List Int))
    (abs_vol label : Int) (halStatus : Nat) : AvrcpState × OutboundEffect :=
  (s,
    if !s.sBluetoothAvrcpInterface then ⟨[], false, false, none⟩
    else
      match addrPin with
      | none => ⟨[], true, false, none⟩
      | some addr =>
        ⟨[HalCall.set_volume_rsp addr (uint8ofInt abs_vol) (uint8ofInt label)],
          false, false, none⟩)

/-- Embedding of `sendRegisterAbsVolRspNative` (lines 1097-1116). -/
def sendRegisterAbsVolRspNative (s : AvrcpState) (addrPin : Option (List Int))
    (rsp_type abs_vol label : Int) (halStatus : Nat) : AvrcpState × OutboundEffect :=
  (s,
    if !s.sBluetoothAvrcpInterface then ⟨[], false, false, none⟩
    else
      match addrPin with
      | none => ⟨[], true, false, none⟩
      | some addr =>
        ⟨[HalCall.register_abs_vol_rsp addr rsp_type (uint8ofInt abs_vol) (uint8ofInt label)],
          false, false, none⟩)

/-- Embedding of `getPlaybackStateNative` (lines 1118-1134). -/
def getPlaybackStateNative (s : AvrcpState) (addrPin : Option (List Int))
    (halStatus : Nat) : AvrcpState × OutboundEffect :=
  (s,
    if !s.sBluetoothAvrcpInterface then ⟨[], false, false, none⟩
    else
      match addrPin with
      | none => ⟨[], true, false, none⟩
      | some addr => ⟨[HalCall.get_playback_state_cmd addr], false, false, none⟩)

/-- Embedding of `getNowPlayingListNative` (lines 1136-1151). -/
def getNowPlayingListNative (s : AvrcpState) (addrPin : Option (List Int))
    (start finish : Int) (halStatus : Nat) : AvrcpState × OutboundEffect :=
  (s,
    if !s.sBluetoothAvrcpInterface then ⟨[], false, false, none⟩
    else
      match addrPin with
      | none => ⟨[], true, false, none⟩
      | some addr => ⟨[HalCall.get_now_playing_list_cmd addr start finish], false, false, none⟩)

/-- Embedding of `getFolderListNative` (lines 1153-1168). -/
def getFolderListNative (s : AvrcpState) (addrPin : Option (List Int))
    (start finish : Int) (halStatus : Nat) : AvrcpState × OutboundEffect :=
  (s,
    if !s.sBluetoothAvrcpInterface then ⟨[], false, false, none⟩
    else
      match addrPin with
      | none => ⟨[], true, false, none⟩
      | some addr => ⟨[HalCall.get_folder_list_cmd addr start finish], false, false, none⟩)

/-- Embedding of `getPlayerListNative` (lines 1170-1186). -/
def getPlayerListNative (s : AvrcpState) (addrPin : Option (List Int))
    (start finish : Int) (halStatus : Nat) : AvrcpState × OutboundEffect :=
  (s,
    if !s.sBluetoothAvrcpInterface then ⟨[], false, false, none⟩
    else
      match addrPin with
      | none => ⟨[], true, false, none⟩
      | some addr => ⟨[HalCall.get_player_list_cmd addr start finish], false, false, none⟩)

/-- Embedding of `changeFolderPathNative` (lines 1188-1212). -/
def changeFolderPathNative (s : AvrcpState) (addrPin : Option (List Int))
    (uidCounter direction : Int) (uidPin : Option (List Int)) (halStatus : Nat) :
    AvrcpState × OutboundEffect :=
  (s,
    if !s.sBluetoothAvrcpInterface then ⟨[], false, false, none⟩
    else
      match addrPin with
      | none => ⟨[], true, false, none⟩
      | some addr =>
        match uidPin with
        | none => ⟨[], true, false, none⟩
        | some uid =>
          ⟨[HalCall.change_folder_path_cmd addr (uint16ofInt uidCounter)
              (uint8ofInt direction) uid], false, false, none⟩)

/-- Embedding of `playItemNative` (lines 1251-1274). -/
def playItemNative (s : AvrcpState) (addrPin : Option (List Int)) (scope : Int)
    (uidPin : Option (List Int)) (uidCounter : Int) (halStatus : Nat) :
    AvrcpState × OutboundEffect :=
  (s,
    if !s.sBluetoothAvrcpInterface then ⟨[], false, false, none⟩
    else
      match addrPin with
      | none => ⟨[], true, false, none⟩
      | some addr =>
        match uidPin with
        | none => ⟨[], true, false, none⟩
        | some uid =>
          ⟨[HalCall.play_item_cmd addr (uint8ofInt scope) uid (uint16ofInt uidCounter)],
            false, false, none⟩)

/-- Embedding of `setBrowsedPlayerNative` (lines 1214-1230). -/
def setBrowsedPlayerNative (s : AvrcpState) (addrPin : Option (List Int)) (id : Int)
    (halStatus : Nat) : AvrcpState × OutboundEffect :=
  (s,
    if !s.sBluetoothAvrcpInterface then ⟨[], false, false, none⟩
    else
      match addrPin with
      | none => ⟨[], true, false, none⟩
      | some addr => ⟨[HalCall.set_browsed_player_cmd addr (uint16ofInt id)], false, false, none⟩)

/-- Embedding of `setAddressedPlayerNative` (lines 1232-1249). -/
def setAddressedPlayerNative (s : AvrcpState) (addrPin : Option (List Int)) (id : Int)
    (halStatus : Nat) : AvrcpState × OutboundEffect :=
  (s,
    if !s.sBluetoothAvrcpInterface then ⟨[], false, false, none⟩
    else
      match addrPin with
      | none => ⟨[], true, false, none⟩
      | some addr => ⟨[HalCall.set_addressed_player_cmd addr (uint16ofInt id)], false, false, none⟩)

/-- Embedding of `getItemElementAttributesNative` (lines 1282-1315).  `attrIds` is the
`jintArray` argument (`none` = Java passed null), `attrPinOk` is the
`GetIntArrayElements` oracle.  The guard compares the signed `jbyte`
`numAttr` against `BTRC_MAX_ELEM_ATTR_SIZE` after integer promotion. -/
def getItemElementAttributesNative (s : AvrcpState) (addrPin : Option (List Int))
    (numAttr : Int) (attrIds : Option (List Int)) (attrPinOk : Bool) (halStatus : Nat) :
    AvrcpState × OutboundEffect :=
  (s,
    if !s.sBluetoothAvrcpVendorInterface then ⟨[], false, false, none⟩
    else
      match addrPin with
      | none => ⟨[], true, false, none⟩
      | some addr =>
        if BTRC_MAX_ELEM_ATTR_SIZE < numAttr then ⟨[], false, false, none⟩
        else if 0 < numAttr ∧ attrIds.isSome then
          if !attrPinOk then ⟨[], true, false, none⟩
          else
            ⟨[HalCall.get_media_element_attributes_vendor addr numAttr attrIds],
              false, false, none⟩
        else
          ⟨[HalCall.get_media_element_attributes_vendor addr numAttr none],
            false, false, none⟩)

/-- Embedding of `getElementAttributesNative` (lines 1323-1356); same shape, different HAL
entry point. -/
def getElementAttributesNative (s : AvrcpState) (addrPin : Option (List Int))
    (numAttr : Int) (attrIds : Option (List Int)) (attrPinOk : Bool) (halStatus : Nat) :
    AvrcpState × OutboundEffect :=
  (s,
    if !s.sBluetoothAvrcpVendorInterface then ⟨[], false, false, none⟩
    else
      match addrPin with
      | none => ⟨[], true, false, none⟩
      | some addr =>
        if BTRC_MAX_ELEM_ATTR_SIZE < numAttr then ⟨[], false, false, none⟩
        else if 0 < numAttr ∧ attrIds.isSome then
          if !attrPinOk then ⟨[], true, false, none⟩
          else
            ⟨[HalCall.get_element_attributes_cmd addr numAttr attrIds], false, false, none⟩
        else
          ⟨[HalCall.get_element_attributes_cmd addr numAttr none], false, false, none⟩)

/-- Embedding of `getFolderItemsNative` (lines 1358-1392). -/
def getFolderItemsNative (s : AvrcpState) (addrPin : Option (List Int)) (scope : Int)
    (start finish : Int) (numAttr : Int) (attrIds : Option (List Int)) (attrPinOk : Bool)
    (halStatus : Nat) : AvrcpState × OutboundEffect :=
  (s,
    if !s.sBluetoothAvrcpVendorInterface then ⟨[], false, false, none⟩
    else
      match addrPin with
      | none => ⟨[], true, false, none⟩
      | some addr =>
        if BTRC_MAX_ELEM_ATTR_SIZE < numAttr then ⟨[], false, false, none⟩
        else if 0 < numAttr ∧ attrIds.isSome then
          if !attrPinOk then ⟨[], true, false, none⟩
          else
            ⟨[HalCall.get_folder_items_vendor_cmd addr scope start finish numAttr attrIds],
              false, false, none⟩
        else
          ⟨[HalCall.get_folder_items_vendor_cmd addr scope start finish numAttr none],
            false, false, none⟩)

/-- Embedding of `searchNative` (lines 1394-1421).  `patternPin` is the result of
`GetStringUTFChars`; the source uses it without a NULL check, so the HAL call
carries the possibly-null pointer. -/
def searchNative (s : AvrcpState) (addrPin : Option (List Int)) (charset strLen : Int)
    (patternPin : Option String) (halStatus : Nat) : AvrcpState × OutboundEffect :=
  (s,
    if !s.sBluetoothAvrcpVendorInterface then ⟨[], false, false, none⟩
    else
      match addrPin with
      | none => ⟨[], true, false, none⟩
      | some addr =>
        ⟨[HalCall.search_cmd addr (uint16ofInt charset) (uint16ofInt strLen) patternPin],
          false, false, none⟩)

/-- Embedding of `getSearchListNative` (lines 1423-1442). -/
def getSearchListNative (s : AvrcpState) (addrPin : Option (List Int))
    (start items : Int) (halStatus : Nat) : AvrcpState × OutboundEffect :=
  (s,
    if !s.sBluetoothAvrcpVendorInterface then ⟨[], false, false, none⟩
    else
      match addrPin with
      | none => ⟨[], true, false, none⟩
      | some addr => ⟨[HalCall.get_search_list_cmd addr start items], false, false, none⟩)

/-- Embedding of `addToNowPlayingNative` (lines 1444-1469). -/
def addToNowPlayingNative (s : AvrcpState) (addrPin : Option (List Int)) (scope : Int)
    (uidPin : Option (List Int)) (uidCounter : Int) (halStatus : Nat) :
    AvrcpState × OutboundEffect :=
  (s,
    if !s.sBluetoothAvrcpVendorInterface then ⟨[], false, false, none⟩
    else
      match addrPin with
      | none => ⟨[], true, false, none⟩
      | some addr =>
        match uidPin with
        | none => ⟨[], true, false, none⟩
        | some uid =>
          ⟨[HalCall.add_to_now_playing_cmd addr (uint8ofInt scope) uid (uint16ofInt uidCounter)],
            false, false, none⟩)

/-- Embedding of `getItemAttributesNative` (lines 1471-1513): pins address and uid, then
checks `numAttr`, then optionally pins the attribute id array. -/
def getItemAttributesNative (s : AvrcpState) (addrPin : Option (List Int)) (scope : Int)
    (uidPin : Option (List Int)) (uidCounter numAttr : Int) (attrIds : Option (List Int))
    (attrPinOk : Bool) (halStatus : Nat) : AvrcpState × OutboundEffect :=
  (s,
    if !s.sBluetoothAvrcpVendorInterface then ⟨[], false, false, none⟩
    else
      match addrPin with
      | none => ⟨[], true, false, none⟩
      | some addr =>
        match uidPin with
        | none => ⟨[], true, false, none⟩
        | some uid =>
          if BTRC_MAX_ELEM_ATTR_SIZE < numAttr then ⟨[], false, false, none⟩
          else if 0 < numAttr ∧ attrIds.isSome then
            if !attrPinOk then ⟨[], true, false, none⟩
            else
              ⟨[HalCall.get_item_attr_cmd addr (uint8ofInt scope) uid (uint16ofInt uidCounter)
                  numAttr attrIds], false, false, none⟩
          else
            ⟨[HalCall.get_item_attr_cmd addr (uint8ofInt scope) uid (uint16ofInt uidCounter)
                numAttr none], false, false, none⟩)

/-- Embedding of `getTotalNumOfItemsNative` (lines 1515-1532). -/
def getTotalNumOfItemsNative (s : AvrcpState) (addrPin : Option (List Int)) (scope : Int)
    (halStatus : Nat) : AvrcpState × OutboundEffect :=
  (s,
    if !s.sBluetoothAvrcpVendorInterface then ⟨[], false, false, none⟩
    else
      match addrPin with
      | none => ⟨[], true, false, none⟩
      | some addr => ⟨[HalCall.get_num_of_items_cmd addr (uint8ofInt scope)], false, false, none⟩)

/-- Embedding of `fetchPlayerApplicationSettingNative` (lines 1534-1547).  The guard tests
`sBluetoothAvrcpInterface`, but the HAL call is made through
`sBluetoothAvrcpVendorInterface`; dereferencing it while NULL is recorded as
`nullDeref`. -/
def fetchPlayerApplicationSettingNative (s : AvrcpState) (addrPin : Option (List Int))
    (halStatus : Nat) : AvrcpState × OutboundEffect :=
  (s,
    if !s.sBluetoothAvrcpInterface then ⟨[], false, false, none⟩
    else
      match addrPin with
      | none => ⟨[], true, false, none⟩
      | some addr =>
        if s.sBluetoothAvrcpVendorInterface then
          ⟨[HalCall.fetch_player_app_setting addr], false, false, none⟩
        else ⟨[], false, true, none⟩)

/-- Embedding of `requestContinuingResponseNative` (lines 1549-1566). -/
def requestContinuingResponseNative (s : AvrcpState) (addrPin : Option (List Int))
    (pduId : Int) (halStatus : Nat) : AvrcpState × OutboundEffect :=
  (s,
    if !s.sBluetoothAvrcpVendorInterface then ⟨[], false, false, none⟩
    else
      match addrPin with
      | none => ⟨[], true, false, none⟩
      | some addr =>
        ⟨[HalCall.request_continuing_response_cmd addr (uint8ofInt pduId)], false, false, none⟩)

/-- Embedding of `abortContinuingResponseNative` (lines 1568-1585). -/
def abortContinuingResponseNative (s : AvrcpState) (addrPin : Option (List Int))
    (pduId : Int) (halStatus : Nat) : AvrcpState × OutboundEffect :=
  (s,
    if !s.sBluetoothAvrcpVendorInterface then ⟨[], false, false, none⟩
    else
      match addrPin with
      | none => ⟨[], true, false, none⟩
      | some addr =>
        ⟨[HalCall.abort_continuing_response_cmd addr (uint8ofInt pduId)], false, false, none⟩)

/-- Embedding of `disconnectNative` (lines 1587-1603). -/
def disconnectNative (s : AvrcpState) (addrPin : Option (List Int)) (halStatus : Nat) :
    AvrcpState × OutboundEffect :=
  (s,
    if !s.sBluetoothAvrcpVendorInterface then ⟨[], false, false, none⟩
    else
      match addrPin with
      | none => ⟨[], true, false, none⟩
      | some addr => ⟨[HalCall.disconnect addr], false, false, none⟩)

/-- Embedding of `bredrcleanupNative` (vendor file, lines 177-186). -/
def bredrcleanupNative (s : VendorState) : VendorState × OutboundEffect :=
  (s,
    if !s.sBluetoothVendorInterface then ⟨[], false, false, some false⟩
    else ⟨[HalCall.bredrcleanup], false, false, some true⟩)

/-- Embedding of `setWifiStateNative` (vendor file, lines 188-197). -/
def setWifiStateNative (s : VendorState) (status : Bool) : VendorState × OutboundEffect :=
  (s,
    if !s.sBluetoothVendorInterface then ⟨[], false, false, some false⟩
    else ⟨[HalCall.set_wifi_state status], false, false, some true⟩)

/-- Embedding of `getProfileInfoNative` (vendor file, lines 199-210); returns the HAL's own
boolean result. -/
def getProfileInfoNative (s : VendorState) (profile_id profile_info : Int)
    (halRet : Bool) : VendorState × OutboundEffect :=
  (s,
    if !s.sBluetoothVendorInterface then ⟨[], false, false, some false⟩
    else ⟨[HalCall.get_profile_info profile_id profile_info], false, false, some halRet⟩)

/-- Embedding of `getLinkKeyNative` (vendor file, lines 212-228). -/
def getLinkKeyNative (s : VendorState) (addrPin : Option (List Int)) :
    VendorState × OutboundEffect :=
  (s,
    if !s.sBluetoothVendorInterface then ⟨[], false, false, none⟩
    else
      match addrPin with
      | none => ⟨[], true, false, none⟩
      | some addr => ⟨[HalCall.get_link_key addr], false, false, none⟩)

/-- External outcomes consumed by `initNative` of the avrcp controller file:
whether `getBluetoothInterface` returned non-NULL, whether each
`get_profile_interface` lookup returned non-NULL and the status of each HAL
`init` call. -/
structure InitEnv where
  btInfOk : Bool
  avrcpProfileOk : Bool
  initStatus : Nat
  vendorProfileOk : Bool
  initVendorStatus : Nat
deriving DecidableEq

/-- Embedding of `initNative` of the avrcp controller file (lines 880-953), restricted to
its effect on the static state (the class global references are not part of
the modelled state). -/
def initNative (s : AvrcpState) (e : InitEnv) : AvrcpState :=
  if !e.btInfOk then s
  else
    let s1 := if s.sBluetoothAvrcpVendorInterface then
        { s with sBluetoothAvrcpVendorInterface := false } else s
    let s2 := if s1.sBluetoothAvrcpInterface then
        { s1 with sBluetoothAvrcpInterface := false } else s1
    let s3 := if s2.sCallbacksObj then { s2 with sCallbacksObj := false } else s2
    if !e.avrcpProfileOk then s3
    else
      let s4 := { s3 with sBluetoothAvrcpInterface := true }
      if e.initStatus ≠ BT_STATUS_SUCCESS then { s4 with sBluetoothAvrcpInterface := false }
      else if !e.vendorProfileOk then { s4 with sBluetoothAvrcpInterface := false }
      else
        let s5 := { s4 with sBluetoothAvrcpVendorInterface := true }
        if e.initVendorStatus ≠ BT_STATUS_SUCCESS then
          { s5 with sBluetoothAvrcpVendorInterface := false, sBluetoothAvrcpInterface := false }
        else { s5 with sCallbacksObj := true }

/-- Embedding of `cleanupNative` of the avrcp controller file (lines 955-976). -/
def cleanupNative (s : AvrcpState) (btInfOk : Bool) : AvrcpState :=
  if !btInfOk then s
  else
    let s1 := if s.sBluetoothAvrcpVendorInterface then
        { s with sBluetoothAvrcpVendorInterface := false } else s
    let s2 := if s1.sBluetoothAvrcpInterface then
        { s1 with sBluetoothAvrcpInterface := false } else s1
    if s2.sCallbacksObj then { s2 with sCallbacksObj := false } else s2

/-- The pairing invariant of claim C8: the base and vendor AVRCP interface
pointers are both NULL or both non-NULL. -/
def pairInv (s : AvrcpState) : Prop :=
  s.sBluetoothAvrcpInterface = s.sBluetoothAvrcpVendorInterface

instance (s : AvrcpState) : Decidable (pairInv s) := by
  unfold pairInv; infer_instance

/-- Embedding of `btrc_element_attr_val_t`: an attribute id and its null-terminated text. -/
structure ElemAttrVal where
  attr_id : Nat
  text : String
deriving DecidableEq

/-- The `jmethodID` argument distinguishing the three users of
`btavrcp_attr_rsp_callback`. -/
inductive AttrRspMethod where
  | handletrackchanged
  | handleGetElementAttrResp
  | handleGetItemAttrResp
deriving DecidableEq

/-- The Java call performed by `btavrcp_attr_rsp_callback`: method, address
byte array, the `(jbyte)num_attr` argument, the `jintArray` of attribute ids
and the `String[]` of texts. -/
structure AttrRspCall where
  method : AttrRspMethod
  addr : List Nat
  num_attr : Nat
  attribIds : List Nat
  stringArray : List String
deriving DecidableEq

/-- The per-attribute loop of `btavrcp_attr_rsp_callback` (lines 315-326):
for each attribute it builds the UTF string (abort on NULL), then stores the
id and the string at index `i`. -/
def attrRspLoop (strOk : Nat → Bool) :
    List ElemAttrVal → Nat → List Nat → List String → Option (List Nat × List String)
  | [], _, ids, strs => some (ids, strs)
  | a :: rest, i, ids, strs =>
    if !strOk i then none
    else attrRspLoop strOk rest (i + 1) (ids ++ [a.attr_id]) (strs ++ [a.text])

/-- Embedding of `btavrcp_attr_rsp_callback` (lines 278-331).  Oracles: `envValid` for
`CallbackEnv`, `addrOk` for the address `NewByteArray`, `idsOk` for
`NewIntArray`, `strArrOk` for `NewObjectArray`, `strOk i` for the i-th
`NewStringUTF`.  The `FindClass` result is passed to `NewObjectArray`
unchecked; only the array allocation outcome is observable here.  Returns the
Java call performed or `none` when the function returned without one. -/
def btavrcp_attr_rsp_callback (envValid addrOk idsOk strArrOk : Bool)
    (strOk : Nat → Bool) (bd_addr : List Nat) (p_attrs : List ElemAttrVal)
    (method : AttrRspMethod) : Option AttrRspCall :=
  if !envValid then none
  else if !addrOk then none
  else if !idsOk then none
  else if !strArrOk then none
  else
    match attrRspLoop strOk p_attrs 0 [] [] with
    | none => none
    | some (ids, strs) => some ⟨method, bd_addr, p_attrs.length, ids, strs⟩

/-- Embedding of `btavrcp_track_changed_callback` (lines 333-338). -/
def btavrcp_track_changed_callback (envValid addrOk idsOk strArrOk : Bool)
    (strOk : Nat → Bool) (bd_addr : List Nat) (p_attrs : List ElemAttrVal) :
    Option AttrRspCall :=
  btavrcp_attr_rsp_callback envValid addrOk idsOk strArrOk strOk bd_addr p_attrs
    AttrRspMethod.handletrackchanged

/-- Embedding of `btavrcp_get_elem_attr_rsp_callback` (lines 618-622). -/
def btavrcp_get_elem_attr_rsp_callback (envValid addrOk idsOk strArrOk : Bool)
    (strOk : Nat → Bool) (bd_addr : List Nat) (p_attrs : List ElemAttrVal) :
    Option AttrRspCall :=
  btavrcp_attr_rsp_callback envValid addrOk idsOk strArrOk strOk bd_addr p_attrs
    AttrRspMethod.handleGetElementAttrResp

/-- Embedding of `btavrcp_get_item_attr_rsp_callback` (lines 653-657). -/
def btavrcp_get_item_attr_rsp_callback (envValid addrOk idsOk strArrOk : Bool)
    (strOk : Nat → Bool) (bd_addr : List Nat) (p_attrs : List ElemAttrVal) :
    Option AttrRspCall :=
  btavrcp_attr_rsp_callback envValid addrOk idsOk strArrOk strOk bd_addr p_attrs
    AttrRspMethod.handleGetItemAttrResp

/-- Embedding of `btrc_player_app_attr_t`: id, value count and the fixed-size value array
(embedded as an index function, as the code reads `attr_val[0..num_val)`). -/
structure BtrcPlayerAppAttr where
  attr_id : Nat
  num_val : Nat
  attr_val : Nat → Nat

/-- Embedding of `btrc_player_settings_t`. -/
structure BtrcPlayerSettings where
  num_attr : Nat
  attr_ids : Nat → Nat
  attr_values : Nat → Nat

/-- Embedding of `SetByteArrayRegion(arr, k, src.length, src)`: overwrite the region
`[k, k + src.length)` of the byte array. -/
def writeBytes (arr : Nat → Nat) (k : Nat) (src : List Nat) : Nat → Nat :=
  fun j => if k ≤ j ∧ j < k + src.length then src.getD (j - k) 0 else arr j

/-- The first `n` bytes of a Java byte array (`NewByteArray` zero-fills). -/
def readN (arr : Nat → Nat) (n : Nat) : List Nat := (List.range n).map arr

/-- The value bytes `attr_val[0..num_val)` of one attribute. -/
def attrValBytes (a : BtrcPlayerAppAttr) : List Nat :=
  (List.range a.num_val).map a.attr_val

/-- The `arraylen` accumulation loop of
`btavrcp_playerapplicationsetting_callback` (lines 171-175):
`arraylen += 2 + app_attrs[i].num_val` over all attributes. -/
def appSettingArrayLen : List BtrcPlayerAppAttr → Nat
  | [] => 0
  | a :: rest => 2 + a.num_val + appSettingArrayLen rest

/-- The flattening loop of `btavrcp_playerapplicationsetting_callback`
(lines 185-196): while `i < num_attr && k < arraylen`, write `attr_id` at
`k`, `num_val` at `k+1`, the value bytes at `k+2` and advance `k` by
`2 + num_val`. -/
def appSettingLoop (arraylen : Nat) :
    List BtrcPlayerAppAttr → Nat → (Nat → Nat) → (Nat → Nat)
  | [], _, arr => arr
  | a :: rest, k, arr =>
    if k < arraylen then
      appSettingLoop arraylen rest (k + 2 + a.num_val)
        (writeBytes (writeBytes (writeBytes arr k [a.attr_id]) (k + 1) [a.num_val])
          (k + 2) (attrValBytes a))
    else arr

/-- The Java call performed by `btavrcp_playerapplicationsetting_callback`:
`handlePlayerAppSetting(addr, playerattribs, arraylen)`. -/
structure PlayerAppSettingCall where
  addr : List Nat
  playerattribs : List Nat
  arraylen : Nat
deriving DecidableEq

/-- Embedding of `btavrcp_playerapplicationsetting_callback` (lines 152-199).  The
`ext_attrs` parameters are unused by the source (a TODO) and are omitted.
Oracles: `envValid`, `addrOk` for the address array, `attribsOk` for the
`playerattribs` array. -/
def btavrcp_playerapplicationsetting_callback (envValid addrOk attribsOk : Bool)
    (bd_addr : List Nat) (app_attrs : List BtrcPlayerAppAttr) :
    Option PlayerAppSettingCall :=
  if !envValid then none
  else if !addrOk then none
  else
    let arraylen := appSettingArrayLen app_attrs
    if !attribsOk then none
    else
      some ⟨bd_addr, readN (appSettingLoop arraylen app_attrs 0 fun _ => 0) arraylen,
        arraylen⟩

/-- The flattening loop of `btavrcp_playerapplicationsetting_changed_callback`
(lines 226-233): while `i < num_attr && k < arraylen`, write `attr_ids[i]` at
`k` and `attr_values[i]` at `k+1`.  The counter `i` is split into the number
of remaining iterations and the running index. -/
def settingsChangedLoop (arraylen : Nat) (p : BtrcPlayerSettings) :
    Nat → Nat → Nat → (Nat → Nat) → (Nat → Nat)
  | 0, _, _, arr => arr
  | remaining + 1, i, k, arr =>
    if k < arraylen then
      settingsChangedLoop arraylen p remaining (i + 1) (k + 2)
        (writeBytes (writeBytes arr k [p.attr_ids i]) (k + 1) [p.attr_values i])
    else arr

/-- The Java call performed by
`btavrcp_playerapplicationsetting_changed_callback`:
`onPlayerAppSettingChanged(addr, playerattribs, arraylen)`. -/
structure PlayerAppSettingChangedCall where
  addr : List Nat
  playerattribs : List Nat
  arraylen : Nat
deriving DecidableEq

/-- Embedding of `btavrcp_playerapplicationsetting_changed_callback` (lines 201-237). -/
def btavrcp_playerapplicationsetting_changed_callback (envValid addrOk attribsOk : Bool)
    (bd_addr : List Nat) (p_vals : BtrcPlayerSettings) :
    Option PlayerAppSettingChangedCall :=
  if !envValid then none
  else if !addrOk then none
  else
    let arraylen := p_vals.num_attr * 2
    if !attribsOk then none
    else
      some ⟨bd_addr,
        readN (settingsChangedLoop arraylen p_vals p_vals.num_attr 0 0 fun _ => 0) arraylen,
        arraylen⟩

/-- Embedding of `btrc_folder_items_t`: a tagged union over the three known item types;
`unknown` covers any other `item_type` tag (the `default` case of the
switch). -/
structure MediaItemRec where
  uid : List Nat
  type : Nat
  name : String
  attrs : List ElemAttrVal
deriving DecidableEq

structure FolderItemRec where
  uid : List Nat
  type : Nat
  playable : Nat
  name : String
deriving DecidableEq

structure PlayerItemRec where
  player_id : Nat
  major_type : Nat
  play_status : Nat
  features : List Nat
  name : String
deriving DecidableEq

inductive BtrcItem where
  | media (m : MediaItemRec)
  | folder (f : FolderItemRec)
  | player (p : PlayerItemRec)
  | unknown (item_type : Nat)
deriving DecidableEq

/-- Embedding of `item_type == BTRC_ITEM_PLAYER`. -/
def BtrcItem.isPlayer : BtrcItem → Bool
  | BtrcItem.player _ => true
  | _ => false

/-- The item carries one of the three known type tags. -/
def BtrcItem.isKnown : BtrcItem → Bool
  | BtrcItem.unknown _ => false
  | _ => true

/-- One `CallObjectMethod` into a `createFromNative*` Java factory performed
by `btavrcp_get_folder_items_callback`, with the marshaled arguments. -/
inductive JavaCtorCall where
  | mediaItem (uid : List Nat) (type : Nat) (name : String) (attrIds : List Nat)
      (attrVals : List (Option String))
  | folderItem (uid : List Nat) (type : Nat) (name : String) (playable : Nat)
  | playerItem (id : Nat) (name : String) (features : List Nat) (playStatus : Nat)
      (playerType : Nat)
deriving DecidableEq

/-- The final Java handler invoked by `btavrcp_get_folder_items_callback`. -/
inductive FolderHandler where
  | playerRsp
  | folderRsp (status : Nat)
deriving DecidableEq

/-- Result of `btavrcp_get_folder_items_callback`: either it returned early
(`aborted`, with the factory calls made before the abort) or it invoked
exactly one of the two handlers. -/
inductive FolderItemsResult where
  | aborted (ctors : List JavaCtorCall)
  | handled (ctors : List JavaCtorCall) (handler : FolderHandler)
deriving DecidableEq

/-- JNI allocation oracles of `btavrcp_get_folder_items_callback`, one per
call site (indexed by the item counter `i`, and by the inner counter `j` for
the per-attribute `NewStringUTF`). -/
structure FolderItemsEnv where
  envValid : Bool
  itemArrayOk : Bool
  mediaNameOk : Nat → Bool
  uidArrayOk : Nat → Bool
  attrIdArrayOk : Nat → Bool
  attrValArrayOk : Nat → Bool
  attrValStrOk : Nat → Nat → Bool
  mediaCtorOk : Nat → Bool
  folderNameOk : Nat → Bool
  folderCtorOk : Nat → Bool
  featureArrayOk : Nat → Bool
  playerNameOk : Nat → Bool
  playerCtorOk : Nat → Bool

/-- The inner `j` loop of the media case (lines 449-462): the `NewStringUTF`
result is stored without a check (the null test there re-tests
`uidByteArray`, which is already known non-null, so it can never fire); a
failed allocation stores a null element. -/
def mediaAttrVals (ok : Nat → Bool) : List ElemAttrVal → Nat → List (Option String)
  | [], _ => []
  | a :: rest, j =>
    (if ok j then some a.text else none) :: mediaAttrVals ok rest (j + 1)

/-- The item loop of `btavrcp_get_folder_items_callback` (lines 406-557).
Returns the factory calls made and `some` final `isPlayerListing` flag, or
`none` in the second component when the function returned mid-loop.  The
player case sets the flag to `true` (line 516) regardless of its previous
value. -/
def folderItemsLoop (e : FolderItemsEnv) :
    List BtrcItem → Nat → List JavaCtorCall → Bool → List JavaCtorCall × Option Bool
  | [], _, ctors, isP => (ctors, some isP)
  | item :: rest, i, ctors, isP =>
    match item with
    | BtrcItem.media m =>
      if !e.mediaNameOk i then (ctors, none)
      else if !e.uidArrayOk i then (ctors, none)
      else if !e.attrIdArrayOk i then (ctors, none)
      else if !e.attrValArrayOk i then (ctors, none)
      else
        let c := JavaCtorCall.mediaItem m.uid m.type m.name
          (m.attrs.map ElemAttrVal.attr_id) (mediaAttrVals (e.attrValStrOk i) m.attrs 0)
        if !e.mediaCtorOk i then (ctors ++ [c], none)
        else folderItemsLoop e rest (i + 1) (ctors ++ [c]) isP
    | BtrcItem.folder f =>
      if !e.folderNameOk i then (ctors, none)
      else if !e.uidArrayOk i then (ctors, none)
      else
        let c := JavaCtorCall.folderItem f.uid f.type f.name f.playable
        if !e.folderCtorOk i then (ctors ++ [c], none)
        else folderItemsLoop e rest (i + 1) (ctors ++ [c]) isP
    | BtrcItem.player p =>
      if !e.featureArrayOk i then (ctors, none)
      else if !e.playerNameOk i then (ctors, none)
      else
        let c := JavaCtorCall.playerItem p.player_id p.name p.features p.play_status
          p.major_type
        if !e.playerCtorOk i then (ctors ++ [c], none)
        else folderItemsLoop e rest (i + 1) (ctors ++ [c]) true
    | BtrcItem.unknown _ => folderItemsLoop e rest (i + 1) ctors isP

/-- Embedding of `btavrcp_get_folder_items_callback` (lines 377-566).  `isPlayerListing`
is seeded from `count > 0 && folder_items[0].item_type == BTRC_ITEM_PLAYER`
(lines 390-391); after the loop, exactly one of the two handlers is
invoked. -/
def btavrcp_get_folder_items_callback (e : FolderItemsEnv) (status : Nat)
    (folder_items : List BtrcItem) : FolderItemsResult :=
  if !e.envValid then FolderItemsResult.aborted []
  else
    let isPlayerListing :=
      match folder_items with
      | [] => false
      | item :: _ => item.isPlayer
    if !e.itemArrayOk then FolderItemsResult.aborted []
    else
      match folderItemsLoop e folder_items 0 [] isPlayerListing with
      | (ctors, none) => FolderItemsResult.aborted ctors
      | (ctors, some isP) =>
        FolderItemsResult.handled ctors
          (if isP then FolderHandler.playerRsp else FolderHandler.folderRsp status)

/-- The spec-side translation of one item through the factory matching its
type (an unknown item produces no factory call: the `default` case only
logs). -/
def ctorOfItem : BtrcItem → List JavaCtorCall
  | BtrcItem.media m =>
    [JavaCtorCall.mediaItem m.uid m.type m.name (m.attrs.map ElemAttrVal.attr_id)
      (m.attrs.map fun a => some a.text)]
  | BtrcItem.folder f => [JavaCtorCall.folderItem f.uid f.type f.name f.playable]
  | BtrcItem.player p =>
    [JavaCtorCall.playerItem p.player_id p.name p.features p.play_status p.major_type]
  | BtrcItem.unknown _ => []

/-- Factory calls for a whole listing, in order. -/
def ctorsOfItems (l : List BtrcItem) : List JavaCtorCall := (l.map ctorOfItem).flatten

/-- All JNI oracles of a `FolderItemsEnv` succeed. -/
def FolderItemsEnv.allOk (e : FolderItemsEnv) : Prop :=
  e.envValid = true ∧ e.itemArrayOk = true ∧ (∀ i, e.mediaNameOk i = true) ∧
    (∀ i, e.uidArrayOk i = true) ∧ (∀ i, e.attrIdArrayOk i = true) ∧
    (∀ i, e.attrValArrayOk i = true) ∧ (∀ i j, e.attrValStrOk i j = true) ∧
    (∀ i, e.mediaCtorOk i = true) ∧ (∀ i, e.folderNameOk i = true) ∧
    (∀ i, e.folderCtorOk i = true) ∧ (∀ i, e.featureArrayOk i = true) ∧
    (∀ i, e.playerNameOk i = true) ∧ (∀ i, e.playerCtorOk i = true)

/-- A `FolderItemsEnv` whose oracles all succeed, for concrete witnesses. -/
def allTrueFolderItemsEnv : FolderItemsEnv :=
  ⟨true, true, fun _ => true, fun _ => true, fun _ => true, fun _ => true,
    fun _ _ => true, fun _ => true, fun _ => true, fun _ => true, fun _ => true,
    fun _ => true, fun _ => true⟩

/-- One hexadecimal digit as printed by `%X` (uppercase). -/
def hexDigit (n : Nat) : Char :=
  if n < 10 then Char.ofNat (48 + n) else Char.ofNat (55 + n)

/-- Embedding of `create_link_key_string` (vendor file, lines 36-45): the content of the
`snprintf` buffer, sixteen `%02X` fields over the link key bytes.  (The C
function wraps this content in `NewStringUTF`; allocation failure of that
final step is an oracle at the call site.) -/
def create_link_key_string (link_key : List Nat) : String :=
  String.mk ((link_key.map fun b => [hexDigit (b / 16), hexDigit (b % 16)]).flatten)

/-- Numeric value of an uppercase hexadecimal digit character. -/
def hexVal (c : Char) : Nat :=
  if c.toNat ≤ 57 then c.toNat - 48 else c.toNat - 55

/-- The character is one of `0..9A..F`. -/
def isUpperHexChar (c : Char) : Bool :=
  (48 ≤ c.toNat && c.toNat ≤ 57) || (65 ≤ c.toNat && c.toNat ≤ 70)

/-- The Java call performed by `get_link_key_callback`:
`onGetLinkKey(linkkey, addr, key_found, key_type)` (the link key string is
`none` when `NewStringUTF` failed). -/
structure GetLinkKeyCall where
  linkkey : Option String
  addr : List Nat
  key_found : Bool
  key_type : Int
deriving DecidableEq

/-- Embedding of `get_link_key_callback` (vendor file, lines 81-106).  `bd_addr` is
`none` for a NULL address pointer; `addrAllocOk` and `strOk` are the
`NewByteArray` / `NewStringUTF` oracles. -/
def get_link_key_callback (envValid : Bool) (bd_addr : Option (List Nat))
    (key_found : Bool) (link_key : List Nat) (key_type : Int)
    (addrAllocOk strOk : Bool) : Option GetLinkKeyCall :=
  if !envValid then none
  else
    match bd_addr with
    | none => none
    | some a =>
      if !addrAllocOk then none
      else
        some ⟨if strOk then some (create_link_key_string link_key) else none,
          a, key_found, key_type⟩

/-- One `CallVoidMethod` performed by the remaining (scalar-forwarding)
native-to-Java callbacks of both translation units, with the marshaled
arguments. -/
inductive JavaVoidCall where
  | handlePassthroughRsp (id pressed : Int) (addr : List Nat)
  | handleGroupNavigationRsp (id pressed : Int)
  | onConnectionStateChanged (rc_connect br_connect : Bool) (addr : List Nat)
  | getRcFeatures (addr : List Nat) (features : Int) (cover_art_psm : Nat)
  | setPlayerAppSettingRsp (addr : List Nat) (accepted : Nat)
  | handleSetAbsVolume (addr : List Nat) (abs_vol label : Nat)
  | handleRegisterNotificationAbsVol (addr : List Nat) (label : Nat)
  | onPlayPositionChanged (addr : List Nat) (song_len song_pos : Nat)
  | onPlayStatusChanged (addr : List Nat) (play_status : Nat)
  | handleChangeFolderRsp (count : Nat)
  | handleSetBrowsedPlayerRsp (num_items depth : Nat)
  | handleSetAddressedPlayerRsp (status : Nat)
  | onUidsChanged (addr : List Nat) (uid_counter : Nat)
  | handleSearchRsp (status uid_counter num_items : Nat)
  | handleNumOfItemsRsp (status uid_counter num_items : Nat)
  | onAddressedPlayerChanged (addr : List Nat) (player_id uid_counter : Nat)
  | onAvailablePlayerChanged (addr : List Nat)
  | onNowPlayingChanged (addr : List Nat)
  | handleAddToNowPlayingRsp (status : Nat)
  | handleErrorStatusCode (opcode id status : Nat)
  | onBredrCleanup (status : Bool)
  | iotDeviceBroadcast (addr : List Nat) (error error_info event_mask : Nat)
      (lmp_ver lmp_subver manufacturer_id power_level rssi link_quality : Nat)
deriving DecidableEq

/-- Embedding of `btavrcp_passthrough_response_callback` (lines 67-84). -/
def btavrcp_passthrough_response_callback (envValid addrOk : Bool) (bd_addr : List Nat)
    (id pressed : Int) : Option JavaVoidCall :=
  if !envValid then none
  else if !addrOk then none
  else some (JavaVoidCall.handlePassthroughRsp id pressed bd_addr)

/-- Embedding of `btavrcp_groupnavigation_response_callback` (lines 86-93). -/
def btavrcp_groupnavigation_response_callback (envValid : Bool) (id pressed : Int) :
    Option JavaVoidCall :=
  if !envValid then none
  else some (JavaVoidCall.handleGroupNavigationRsp id pressed)

/-- Embedding of `btavrcp_connection_state_callback` (lines 95-113). -/
def btavrcp_connection_state_callback (envValid addrOk : Bool)
    (rc_connect br_connect : Bool) (bd_addr : List Nat) : Option JavaVoidCall :=
  if !envValid then none
  else if !addrOk then none
  else some (JavaVoidCall.onConnectionStateChanged rc_connect br_connect bd_addr)

/-- Embedding of `btavrcp_get_rcfeatures_callback` (lines 115-131); delivers a
zero `cover_art_psm`. -/
def btavrcp_get_rcfeatures_callback (envValid addrOk : Bool) (bd_addr : List Nat)
    (features : Int) : Option JavaVoidCall :=
  if !envValid then none
  else if !addrOk then none
  else some (JavaVoidCall.getRcFeatures bd_addr features 0)

/-- Embedding of `btavrcp_setplayerapplicationsetting_rsp_callback`
(lines 133-150). -/
def btavrcp_setplayerapplicationsetting_rsp_callback (envValid addrOk : Bool)
    (bd_addr : List Nat) (accepted : Nat) : Option JavaVoidCall :=
  if !envValid then none
  else if !addrOk then none
  else some (JavaVoidCall.setPlayerAppSettingRsp bd_addr accepted)

/-- Embedding of `btavrcp_set_abs_vol_cmd_callback` (lines 239-256). -/
def btavrcp_set_abs_vol_cmd_callback (envValid addrOk : Bool) (bd_addr : List Nat)
    (abs_vol label : Nat) : Option JavaVoidCall :=
  if !envValid then none
  else if !addrOk then none
  else some (JavaVoidCall.handleSetAbsVolume bd_addr abs_vol label)

/-- Embedding of `btavrcp_register_notification_absvol_callback`
(lines 258-276). -/
def btavrcp_register_notification_absvol_callback (envValid addrOk : Bool)
    (bd_addr : List Nat) (label : Nat) : Option JavaVoidCall :=
  if !envValid then none
  else if !addrOk then none
  else some (JavaVoidCall.handleRegisterNotificationAbsVol bd_addr label)

/-- Embedding of `btavrcp_play_position_changed_callback` (lines 340-357). -/
def btavrcp_play_position_changed_callback (envValid addrOk : Bool)
    (bd_addr : List Nat) (song_len song_pos : Nat) : Option JavaVoidCall :=
  if !envValid then none
  else if !addrOk then none
  else some (JavaVoidCall.onPlayPositionChanged bd_addr song_len song_pos)

/-- Embedding of `btavrcp_play_status_changed_callback` (lines 359-375). -/
def btavrcp_play_status_changed_callback (envValid addrOk : Bool)
    (bd_addr : List Nat) (play_status : Nat) : Option JavaVoidCall :=
  if !envValid then none
  else if !addrOk then none
  else some (JavaVoidCall.onPlayStatusChanged bd_addr play_status)

/-- Embedding of `btavrcp_change_path_callback` (lines 568-575); no binding
call besides the environment lookup. -/
def btavrcp_change_path_callback (envValid : Bool) (count : Nat) :
    Option JavaVoidCall :=
  if !envValid then none
  else some (JavaVoidCall.handleChangeFolderRsp count)

/-- Embedding of `btavrcp_set_browsed_player_callback` (lines 577-586). -/
def btavrcp_set_browsed_player_callback (envValid : Bool) (num_items depth : Nat) :
    Option JavaVoidCall :=
  if !envValid then none
  else some (JavaVoidCall.handleSetBrowsedPlayerRsp num_items depth)

/-- Embedding of `btavrcp_set_addressed_player_callback` (lines 588-597). -/
def btavrcp_set_addressed_player_callback (envValid : Bool) (status : Nat) :
    Option JavaVoidCall :=
  if !envValid then none
  else some (JavaVoidCall.handleSetAddressedPlayerRsp status)

/-- Embedding of `btavrcp_get_vendor_rcfeatures_callback` (lines 599-616). -/
def btavrcp_get_vendor_rcfeatures_callback (envValid addrOk : Bool)
    (bd_addr : List Nat) (features : Int) (cover_art_psm : Nat) : Option JavaVoidCall :=
  if !envValid then none
  else if !addrOk then none
  else some (JavaVoidCall.getRcFeatures bd_addr features cover_art_psm)

/-- Embedding of `btavrcp_uids_changed_callback` (lines 624-640). -/
def btavrcp_uids_changed_callback (envValid addrOk : Bool) (bd_addr : List Nat)
    (uid_counter : Nat) : Option JavaVoidCall :=
  if !envValid then none
  else if !addrOk then none
  else some (JavaVoidCall.onUidsChanged bd_addr uid_counter)

/-- Embedding of `btavrcp_search_response_callback` (lines 642-651); no
binding call besides the environment lookup. -/
def btavrcp_search_response_callback (envValid : Bool)
    (status uid_counter num_items : Nat) : Option JavaVoidCall :=
  if !envValid then none
  else some (JavaVoidCall.handleSearchRsp status uid_counter num_items)

/-- Embedding of `btavrcp_num_of_items_rsp_callback` (lines 660-669). -/
def btavrcp_num_of_items_rsp_callback (envValid : Bool)
    (status uid_counter num_items : Nat) : Option JavaVoidCall :=
  if !envValid then none
  else some (JavaVoidCall.handleNumOfItemsRsp status uid_counter num_items)

/-- Embedding of `btavrcp_addressed_player_update_callback` (lines 671-690). -/
def btavrcp_addressed_player_update_callback (envValid addrOk : Bool)
    (bd_addr : List Nat) (player_id uid_counter : Nat) : Option JavaVoidCall :=
  if !envValid then none
  else if !addrOk then none
  else some (JavaVoidCall.onAddressedPlayerChanged bd_addr player_id uid_counter)

/-- Embedding of `btavrcp_available_player_changed_callback` (lines 692-709). -/
def btavrcp_available_player_changed_callback (envValid addrOk : Bool)
    (bd_addr : List Nat) : Option JavaVoidCall :=
  if !envValid then none
  else if !addrOk then none
  else some (JavaVoidCall.onAvailablePlayerChanged bd_addr)

/-- Embedding of `btavrcp_now_playing_changed_callback` (lines 711-728). -/
def btavrcp_now_playing_changed_callback (envValid addrOk : Bool)
    (bd_addr : List Nat) : Option JavaVoidCall :=
  if !envValid then none
  else if !addrOk then none
  else some (JavaVoidCall.onNowPlayingChanged bd_addr)

/-- Embedding of `btavrcp_add_to_now_playing_callback` (lines 730-739); no
binding call besides the environment lookup. -/
def btavrcp_add_to_now_playing_callback (envValid : Bool) (status : Nat) :
    Option JavaVoidCall :=
  if !envValid then none
  else some (JavaVoidCall.handleAddToNowPlayingRsp status)

/-- Embedding of `btavrcp_error_status_code_callback` (lines 741-750). -/
def btavrcp_error_status_code_callback (envValid : Bool) (opcode id status : Nat) :
    Option JavaVoidCall :=
  if !envValid then none
  else some (JavaVoidCall.handleErrorStatusCode opcode id status)

/-- Embedding of `bredr_cleanup_callback` (vendor file, lines 47-55). -/
def bredr_cleanup_callback (envValid : Bool) (status : Bool) : Option JavaVoidCall :=
  if !envValid then none
  else some (JavaVoidCall.onBredrCleanup status)

/-- Embedding of `iot_device_broadcast_callback` (vendor file, lines 57-79). -/
def iot_device_broadcast_callback (envValid addrOk : Bool) (bd_addr : List Nat)
    (error error_info event_mask lmp_ver lmp_subver manufacturer_id power_level
      rssi link_quality : Nat) : Option JavaVoidCall :=
  if !envValid then none
  else if !addrOk then none
  else some (JavaVoidCall.iotDeviceBroadcast bd_addr error error_info event_mask
    lmp_ver lmp_subver manufacturer_id power_level rssi link_quality)

/-- The checked JNI binding-call sites executed for one item of
`btavrcp_get_folder_items_callback`, by item type.  (The per-attribute
`NewStringUTF` of the media case is not among them: its null test re-tests
`uidByteArray` and is dead, so that result is unchecked.) -/
def itemChecksOk (e : FolderItemsEnv) (i : Nat) : BtrcItem → Prop
  | BtrcItem.media _ => e.mediaNameOk i = true ∧ e.uidArrayOk i = true
      ∧ e.attrIdArrayOk i = true ∧ e.attrValArrayOk i = true ∧ e.mediaCtorOk i = true
  | BtrcItem.folder _ => e.folderNameOk i = true ∧ e.uidArrayOk i = true
      ∧ e.folderCtorOk i = true
  | BtrcItem.player _ => e.featureArrayOk i = true ∧ e.playerNameOk i = true
      ∧ e.playerCtorOk i = true
  | BtrcItem.unknown _ => True

/-- The flat wire chunk of one player-application attribute:
`[attr_id, num_val, value bytes]`. -/
def appAttrChunk (a : BtrcPlayerAppAttr) : List Nat :=
  a.attr_id :: a.num_val :: attrValBytes a

theorem readN_zero (arr : Nat → Nat) : readN arr 0 = [] := rfl

theorem readN_writeBytes_low (arr : Nat → Nat) (k : Nat) (src : List Nat) :
    readN (writeBytes arr k src) k = readN arr k := by
  unfold readN
  apply List.map_congr_left
  intro j hj
  have hjk : j < k := List.mem_range.mp hj
  unfold writeBytes
  have : ¬(k ≤ j ∧ j < k + src.length) := by omega
  simp [this]

theorem map_getD_range (l : List Nat) :
    (List.range l.length).map (fun i => l.getD i 0) = l := by
  induction l with
  | nil => rfl
  | cons a t ih =>
    have : t.length + 1 = Nat.succ t.length := rfl
    simp only [List.length_cons, List.range_succ_eq_map, List.map_cons, List.map_map]
    refine congrArg₂ _ rfl ?_
    calc (List.range t.length).map ((fun i => (a :: t).getD i 0) ∘ (· + 1))
        = (List.range t.length).map (fun i => t.getD i 0) := by
          apply List.map_congr_left; intro j _; simp
      _ = t := ih

theorem readN_writeBytes (arr : Nat → Nat) (k : Nat) (src : List Nat) :
    readN (writeBytes arr k src) (k + src.length) = readN arr k ++ src := by
  unfold readN
  rw [List.range_add, List.map_append, List.map_map]
  refine congrArg₂ _ ?_ ?_
  · have := readN_writeBytes_low arr k src
    unfold readN at this
    exact this
  · calc (List.range src.length).map (writeBytes arr k src ∘ (k + ·))
        = (List.range src.length).map (fun i => src.getD i 0) := by
          apply List.map_congr_left
          intro j hj
          have hjl : j < src.length := List.mem_range.mp hj
          simp only [Function.comp_apply]
          unfold writeBytes
          have hc : k ≤ k + j ∧ k + j < k + src.length := by omega
          simp only [hc, and_self, if_true]
          congr 1
          omega
      _ = src := map_getD_range src

theorem appSettingLoop_spec :
    ∀ (l : List BtrcPlayerAppAttr) (k : Nat) (arr : Nat → Nat) (arraylen : Nat),
      arraylen = k + appSettingArrayLen l →
      readN (appSettingLoop arraylen l k arr) arraylen
        = readN arr k ++ (l.map appAttrChunk).flatten := by
  intro l
  induction l with
  | nil =>
    intro k arr arraylen h
    simp only [appSettingArrayLen, Nat.add_zero] at h
    subst h
    simp [appSettingLoop]
  | cons a t ih =>
    intro k arr arraylen h
    have hlt : k < arraylen := by
      simp only [appSettingArrayLen] at h; omega
    unfold appSettingLoop
    rw [if_pos hlt]
    have harr : arraylen = (k + 2 + a.num_val) + appSettingArrayLen t := by
      simp only [appSettingArrayLen] at h; omega
    rw [ih (k + 2 + a.num_val) _ arraylen harr]
    set w1 := writeBytes arr k [a.attr_id] with hw1
    set w2 := writeBytes w1 (k + 1) [a.num_val] with hw2
    set w3 := writeBytes w2 (k + 2) (attrValBytes a) with hw3
    have hlen : (attrValBytes a).length = a.num_val := by
      simp [attrValBytes]
    have h3 : readN w3 (k + 2 + a.num_val) = readN w2 (k + 2) ++ attrValBytes a := by
      have := readN_writeBytes w2 (k + 2) (attrValBytes a)
      rw [hlen] at this
      exact this
    have h2 : readN w2 (k + 2) = readN w1 (k + 1) ++ [a.num_val] := by
      have := readN_writeBytes w1 (k + 1) [a.num_val]
      simpa using this
    have h1 : readN w1 (k + 1) = readN arr k ++ [a.attr_id] := by
      have := readN_writeBytes arr k [a.attr_id]
      simpa using this
    rw [h3, h2, h1]
    simp [appAttrChunk, List.append_assoc]

theorem appAttrChunk_length (a : BtrcPlayerAppAttr) :
    (appAttrChunk a).length = 2 + a.num_val := by
  simp [appAttrChunk, attrValBytes]
  omega

theorem appAttrFlatten_length (l : List BtrcPlayerAppAttr) :
    ((l.map appAttrChunk).flatten).length = appSettingArrayLen l := by
  induction l with
  | nil => rfl
  | cons a t ih =>
    simp only [List.map_cons, List.flatten_cons, List.length_append,
      appAttrChunk_length, appSettingArrayLen, ih]

theorem settingsChangedLoop_spec (p : BtrcPlayerSettings) :
    ∀ (r i k : Nat) (arr : Nat → Nat) (arraylen : Nat),
      arraylen = k + 2 * r →
      readN (settingsChangedLoop arraylen p r i k arr) arraylen
        = readN arr k
          ++ ((List.range' i r).map fun j => [p.attr_ids j, p.attr_values j]).flatten := by
  intro r
  induction r with
  | zero =>
    intro i k arr arraylen h
    simp only [Nat.mul_zero, Nat.add_zero] at h
    subst h
    simp [settingsChangedLoop]
  | succ n ih =>
    intro i k arr arraylen h
    have hlt : k < arraylen := by omega
    unfold settingsChangedLoop
    rw [if_pos hlt]
    have harr : arraylen = (k + 2) + 2 * n := by omega
    rw [ih (i + 1) (k + 2) _ arraylen harr]
    set w1 := writeBytes arr k [p.attr_ids i] with hw1
    set w2 := writeBytes w1 (k + 1) [p.attr_values i] with hw2
    have h2 : readN w2 (k + 2) = readN w1 (k + 1) ++ [p.attr_values i] := by
      have := readN_writeBytes w1 (k + 1) [p.attr_values i]
      simpa using this
    have h1 : readN w1 (k + 1) = readN arr k ++ [p.attr_ids i] := by
      have := readN_writeBytes arr k [p.attr_ids i]
      simpa using this
    rw [h2, h1]
    rw [List.range'_succ]
    simp [List.append_assoc]

theorem attrRspLoop_allOk (strOk : Nat → Bool) (h : ∀ j, strOk j = true) :
    ∀ (l : List ElemAttrVal) (i : Nat) (ids : List Nat) (strs : List String),
      attrRspLoop strOk l i ids strs
        = some (ids ++ l.map ElemAttrVal.attr_id, strs ++ l.map ElemAttrVal.text) := by
  intro l
  induction l with
  | nil => intro i ids strs; simp [attrRspLoop]
  | cons a t ih =>
    intro i ids strs
    simp only [attrRspLoop, h i, Bool.not_true, Bool.false_eq_true, if_false, ih,
      List.map_cons, List.append_assoc, List.singleton_append]

theorem attrRspLoop_some_strOk (strOk : Nat → Bool) :
    ∀ (l : List ElemAttrVal) (i : Nat) (ids : List Nat) (strs : List String) (r),
      attrRspLoop strOk l i ids strs = some r →
      ∀ j, i ≤ j → j < i + l.length → strOk j = true := by
  intro l
  induction l with
  | nil =>
    intro i ids strs r _ j h1 h2
    simp only [List.length_nil, Nat.add_zero] at h2
    omega
  | cons a t ih =>
    intro i ids strs r hr j h1 h2
    by_cases hi : strOk i = true
    · simp only [attrRspLoop, hi, Bool.not_true, Bool.false_eq_true, if_false] at hr
      rcases Nat.eq_or_lt_of_le h1 with rfl | hlt
      · exact hi
      · exact ih (i + 1) _ _ r hr j hlt (by simp only [List.length_cons] at h2; omega)
    · simp only [attrRspLoop, Bool.not_eq_true] at hr
      rw [Bool.not_eq_true] at hi
      simp [hi] at hr

theorem mediaAttrVals_allOk (ok : Nat → Bool) (h : ∀ j, ok j = true) :
    ∀ (l : List ElemAttrVal) (j : Nat),
      mediaAttrVals ok l j = l.map fun a => some a.text := by
  intro l
  induction l with
  | nil => intro j; rfl
  | cons a t ih => intro j; simp [mediaAttrVals, h j, ih]

theorem folderItemsLoop_allOk (e : FolderItemsEnv) (h : e.allOk) :
    ∀ (l : List BtrcItem) (i : Nat) (ctors : List JavaCtorCall) (isP : Bool),
      folderItemsLoop e l i ctors isP
        = (ctors ++ ctorsOfItems l, some (isP || l.any BtrcItem.isPlayer)) := by
  obtain ⟨h1, h2, h3, h4, h5, h6, h7, h8, h9, h10, h11, h12, h13⟩ := h
  intro l
  induction l with
  | nil => intro i ctors isP; simp [folderItemsLoop, ctorsOfItems]
  | cons item t ih =>
    intro i ctors isP
    cases item with
    | media m =>
      simp only [folderItemsLoop, h3 i, h4 i, h5 i, h6 i, h8 i, Bool.not_true,
        Bool.false_eq_true, if_false, ih, mediaAttrVals_allOk _ (h7 i)]
      simp [ctorsOfItems, ctorOfItem, List.append_assoc, BtrcItem.isPlayer]
    | folder f =>
      simp only [folderItemsLoop, h9 i, h4 i, h10 i, Bool.not_true,
        Bool.false_eq_true, if_false, ih]
      simp [ctorsOfItems, ctorOfItem, List.append_assoc, BtrcItem.isPlayer]
    | player p =>
      simp only [folderItemsLoop, h11 i, h12 i, h13 i, Bool.not_true,
        Bool.false_eq_true, if_false, ih]
      simp [ctorsOfItems, ctorOfItem, List.append_assoc, BtrcItem.isPlayer]
    | unknown ty =>
      simp only [folderItemsLoop, ih]
      simp [ctorsOfItems, ctorOfItem, BtrcItem.isPlayer]

theorem folderItemsLoop_completes_checks (e : FolderItemsEnv) :
    ∀ (l : List BtrcItem) (i : Nat) (ctors : List JavaCtorCall) (isP : Bool)
      (cs : List JavaCtorCall) (b : Bool),
      folderItemsLoop e l i ctors isP = (cs, some b) →
      ∀ j, j < l.length → itemChecksOk e (i + j) (l.getD j (BtrcItem.unknown 0)) := by
  intro l
  induction l with
  | nil =>
    intro i ctors isP cs b _ j hj
    simp at hj
  | cons item rest ih =>
    intro i ctors isP cs b heq j hj
    cases item with
    | media m =>
      have h1 : e.mediaNameOk i = true := by
        by_contra hc; rw [Bool.not_eq_true] at hc
        simp [folderItemsLoop, hc] at heq
      have h2 : e.uidArrayOk i = true := by
        by_contra hc; rw [Bool.not_eq_true] at hc
        simp [folderItemsLoop, h1, hc] at heq
      have h3 : e.attrIdArrayOk i = true := by
        by_contra hc; rw [Bool.not_eq_true] at hc
        simp [folderItemsLoop, h1, h2, hc] at heq
      have h4 : e.attrValArrayOk i = true := by
        by_contra hc; rw [Bool.not_eq_true] at hc
        simp [folderItemsLoop, h1, h2, h3, hc] at heq
      have h5 : e.mediaCtorOk i = true := by
        by_contra hc; rw [Bool.not_eq_true] at hc
        simp [folderItemsLoop, h1, h2, h3, h4, hc] at heq
      simp only [folderItemsLoop, h1, h2, h3, h4, h5, Bool.not_true,
        Bool.false_eq_true, if_false] at heq
      cases j with
      | zero =>
        simp only [List.getD_cons_zero]
        exact ⟨h1, h2, h3, h4, h5⟩
      | succ n =>
        have hn : n < rest.length := by
          simp only [List.length_cons] at hj; omega
        have hrec := ih _ _ _ _ _ heq n hn
        simp only [List.getD_cons_succ]
        rw [show i + (n + 1) = i + 1 + n by omega]
        exact hrec
    | folder f =>
      have h1 : e.folderNameOk i = true := by
        by_contra hc; rw [Bool.not_eq_true] at hc
        simp [folderItemsLoop, hc] at heq
      have h2 : e.uidArrayOk i = true := by
        by_contra hc; rw [Bool.not_eq_true] at hc
        simp [folderItemsLoop, h1, hc] at heq
      have h3 : e.folderCtorOk i = true := by
        by_contra hc; rw [Bool.not_eq_true] at hc
        simp [folderItemsLoop, h1, h2, hc] at heq
      simp only [folderItemsLoop, h1, h2, h3, Bool.not_true,
        Bool.false_eq_true, if_false] at heq
      cases j with
      | zero =>
        simp only [List.getD_cons_zero]
        exact ⟨h1, h2, h3⟩
      | succ n =>
        have hn : n < rest.length := by
          simp only [List.length_cons] at hj; omega
        have hrec := ih _ _ _ _ _ heq n hn
        simp only [List.getD_cons_succ]
        rw [show i + (n + 1) = i + 1 + n by omega]
        exact hrec
    | player p =>
      have h1 : e.featureArrayOk i = true := by
        by_contra hc; rw [Bool.not_eq_true] at hc
        simp [folderItemsLoop, hc] at heq
      have h2 : e.playerNameOk i = true := by
        by_contra hc; rw [Bool.not_eq_true] at hc
        simp [folderItemsLoop, h1, hc] at heq
      have h3 : e.playerCtorOk i = true := by
        by_contra hc; rw [Bool.not_eq_true] at hc
        simp [folderItemsLoop, h1, h2, hc] at heq
      simp only [folderItemsLoop, h1, h2, h3, Bool.not_true,
        Bool.false_eq_true, if_false] at heq
      cases j with
      | zero =>
        simp only [List.getD_cons_zero]
        exact ⟨h1, h2, h3⟩
      | succ n =>
        have hn : n < rest.length := by
          simp only [List.length_cons] at hj; omega
        have hrec := ih _ _ _ _ _ heq n hn
        simp only [List.getD_cons_succ]
        rw [show i + (n + 1) = i + 1 + n by omega]
        exact hrec
    | unknown ty =>
      simp only [folderItemsLoop] at heq
      cases j with
      | zero =>
        simp only [List.getD_cons_zero]
        trivial
      | succ n =>
        have hn : n < rest.length := by
          simp only [List.length_cons] at hj; omega
        have hrec := ih _ _ _ _ _ heq n hn
        simp only [List.getD_cons_succ]
        rw [show i + (n + 1) = i + 1 + n by omega]
        exact hrec

/-- After `initNative` runs past a successful `getBluetoothInterface`, the
two AVRCP interface pointers are both set (full success) or both NULL. -/
theorem initNative_bothness (s : AvrcpState) (e : InitEnv) (hbt : e.btInfOk = true) :
    initNative s e = ⟨true, true, true⟩
      ∨ ((initNative s e).sBluetoothAvrcpInterface = false
          ∧ (initNative s e).sBluetoothAvrcpVendorInterface = false) := by
  obtain ⟨b, v, c⟩ := s
  obtain ⟨bi, ap, is, vp, ivs⟩ := e
  simp only at hbt
  subst hbt
  by_cases his : is = BT_STATUS_SUCCESS <;>
    by_cases hivs : ivs = BT_STATUS_SUCCESS <;>
      cases b <;> cases v <;> cases c <;> cases ap <;> cases vp <;>
        simp [initNative, his, hivs]

theorem cleanupNative_bothness (s : AvrcpState) (btInfOk : Bool) (h : pairInv s) :
    pairInv (cleanupNative s btInfOk) := by
  obtain ⟨b, v, c⟩ := s
  simp only [pairInv] at h
  subst h
  cases btInfOk <;> cases b <;> cases c <;> simp [cleanupNative, pairInv]

set_option maxRecDepth 4096 in
set_option maxHeartbeats 1000000 in
theorem hexPair_spec : ∀ b, b < 256 →
    16 * hexVal (hexDigit (b / 16)) + hexVal (hexDigit (b % 16)) = b
      ∧ isUpperHexChar (hexDigit (b / 16)) = true
      ∧ isUpperHexChar (hexDigit (b % 16)) = true := by decide

theorem hexPairs_getD (d : Char) :
    ∀ (key : List Nat) (i : Nat), i < key.length →
      ((key.map fun b => [hexDigit (b / 16), hexDigit (b % 16)]).flatten).getD (2 * i) d
          = hexDigit (key.getD i 0 / 16)
        ∧ ((key.map fun b => [hexDigit (b / 16), hexDigit (b % 16)]).flatten).getD
            (2 * i + 1) d = hexDigit (key.getD i 0 % 16) := by
  intro key
  induction key with
  | nil => intro i hi; simp at hi
  | cons b t ih =>
    intro i hi
    cases i with
    | zero => simp
    | succ n =>
      have hn : n < t.length := by simp only [List.length_cons] at hi; omega
      have h2 : 2 * (n + 1) = 2 * n + 1 + 1 := by ring
      have h3 : 2 * (n + 1) + 1 = (2 * n + 1) + 1 + 1 := by ring
      simp only [List.map_cons, List.flatten_cons, List.cons_append, h2, h3,
        List.getD_cons_succ, List.nil_append, List.getD_cons_zero]
      exact ih n hn

theorem hexPairs_length (key : List Nat) :
    ((key.map fun b => [hexDigit (b / 16), hexDigit (b % 16)]).flatten).length
      = 2 * key.length := by
  induction key with
  | nil => rfl
  | cons b t ih =>
    simp only [List.map_cons, List.flatten_cons, List.length_append, ih,
      List.length_cons]
    simp
    omega

theorem pairsFlatten_length (f g : Nat → Nat) :
    ∀ (l : List Nat), ((l.map fun j => [f j, g j]).flatten).length = 2 * l.length := by
  intro l
  induction l with
  | nil => rfl
  | cons a t ih =>
    simp only [List.map_cons, List.flatten_cons, List.length_append, ih,
      List.length_cons]
    simp
    omega

/-- C1: the claim states that every outbound command native function returns
without invoking any HAL function when the interface pointer its HAL call is
made through is NULL, naming `fetchPlayerApplicationSettingNative` (whose HAL
call goes through `sBluetoothAvrcpVendorInterface`) in particular.  The code
violates this exactly there: the guard tests `sBluetoothAvrcpInterface` while
the call goes through `sBluetoothAvrcpVendorInterface`.  First conjunct: with
the base interface non-NULL and the vendor interface NULL, the NULL vendor
pointer is dereferenced instead of returning.  Second conjunct: with the base
interface NULL and the vendor interface non-NULL, the function returns early
even though the pointer it actually calls through is valid, confirming that
the guard tests the wrong pointer. -/
theorem C1_fetchPlayerApplicationSettingNative_wrong_guard :
    (fetchPlayerApplicationSettingNative ⟨true, false, false⟩
        (some [0, 0, 0, 0, 0, 0]) 0).2 = ⟨[], false, true, none⟩
      ∧ (fetchPlayerApplicationSettingNative ⟨false, true, false⟩
          (some [0, 0, 0, 0, 0, 0]) 0).2 = ⟨[], false, false, none⟩ := by
  exact ⟨rfl, rfl⟩

/-- C6: `sendPassThroughCommandNative` and `sendGroupNavigationCommandNative`
return JNI_TRUE exactly when the HAL send call returns `BT_STATUS_SUCCESS`
(first and third conjuncts: with the interface set and the address pinned,
the HAL call is made and the returned `jboolean` is true iff the status is
success); with a NULL interface pointer or an unpinnable address array they
return JNI_FALSE without any HAL call (second and fourth conjuncts). -/
theorem C6_send_commands_status :
    ∀ (s : AvrcpState) (pin : Option (List Int)) (kc ks : Int) (st : Nat),
      (s.sBluetoothAvrcpInterface = true → ∀ a, pin = some a →
          (sendPassThroughCommandNative s pin kc ks st).2.halCalls
              = [HalCall.send_pass_through_cmd a (uint8ofInt kc) (uint8ofInt ks)]
            ∧ ((sendPassThroughCommandNative s pin kc ks st).2.ret = some true
                ↔ st = BT_STATUS_SUCCESS))
        ∧ (s.sBluetoothAvrcpInterface = false ∨ pin = none →
            (sendPassThroughCommandNative s pin kc ks st).2.ret = some false
              ∧ (sendPassThroughCommandNative s pin kc ks st).2.halCalls = [])
        ∧ (s.sBluetoothAvrcpInterface = true → ∀ a, pin = some a →
            (sendGroupNavigationCommandNative s pin kc ks st).2.halCalls
                = [HalCall.send_group_navigation_cmd a (uint8ofInt kc) (uint8ofInt ks)]
              ∧ ((sendGroupNavigationCommandNative s pin kc ks st).2.ret = some true
                  ↔ st = BT_STATUS_SUCCESS))
        ∧ (s.sBluetoothAvrcpInterface = false ∨ pin = none →
            (sendGroupNavigationCommandNative s pin kc ks st).2.ret = some false
              ∧ (sendGroupNavigationCommandNative s pin kc ks st).2.halCalls = []) := by
  intro s pin kc ks st
  refine ⟨?_, ?_, ?_, ?_⟩
  · intro hb a ha
    subst ha
    simp [sendPassThroughCommandNative, hb]
  · intro h
    rcases h with hb | hp
    · simp [sendPassThroughCommandNative, hb]
    · subst hp
      cases hb : s.sBluetoothAvrcpInterface <;>
        simp [sendPassThroughCommandNative, hb]
  · intro hb a ha
    subst ha
    simp [sendGroupNavigationCommandNative, hb]
  · intro h
    rcases h with hb | hp
    · simp [sendGroupNavigationCommandNative, hb]
    · subst hp
      cases hb : s.sBluetoothAvrcpInterface <;>
        simp [sendGroupNavigationCommandNative, hb]

/-- Witness for C6 at a concrete state, address and status. -/
theorem C6_send_commands_status_witness :
    (⟨true, true, true⟩ : AvrcpState).sBluetoothAvrcpInterface = true
      ∧ (sendPassThroughCommandNative ⟨true, true, true⟩
          (some [1, 2, 3, 4, 5, 6]) 68 0 0).2.ret = some true :=
  ⟨rfl,
    ((C6_send_commands_status ⟨true, true, true⟩ (some [1, 2, 3, 4, 5, 6]) 68 0 0).1
      rfl [1, 2, 3, 4, 5, 6] rfl).2.mpr rfl⟩

/-- C7: every outbound command native function of both translation units
leaves the module's static state (interface pointers and callback object
references) unchanged; only `initNative` and `cleanupNative` assign them. -/
theorem C7_outbound_commands_preserve_state :
    (∀ (s : AvrcpState) p kc ks st, (sendPassThroughCommandNative s p kc ks st).1 = s)
      ∧ (∀ (s : AvrcpState) p kc ks st, (sendGroupNavigationCommandNative s p kc ks st).1 = s)
      ∧ (∀ (s : AvrcpState) p na ap avp st,
          (setPlayerApplicationSettingValuesNative s p na ap avp st).1 = s)
      ∧ (∀ (s : AvrcpState) p av lb st, (sendAbsVolRspNative s p av lb st).1 = s)
      ∧ (∀ (s : AvrcpState) p rt av lb st, (sendRegisterAbsVolRspNative s p rt av lb st).1 = s)
      ∧ (∀ (s : AvrcpState) p st, (getPlaybackStateNative s p st).1 = s)
      ∧ (∀ (s : AvrcpState) p a b st, (getNowPlayingListNative s p a b st).1 = s)
      ∧ (∀ (s : AvrcpState) p a b st, (getFolderListNative s p a b st).1 = s)
      ∧ (∀ (s : AvrcpState) p a b st, (getPlayerListNative s p a b st).1 = s)
      ∧ (∀ (s : AvrcpState) p uc dr up st, (changeFolderPathNative s p uc dr up st).1 = s)
      ∧ (∀ (s : AvrcpState) p sc up uc st, (playItemNative s p sc up uc st).1 = s)
      ∧ (∀ (s : AvrcpState) p i st, (setBrowsedPlayerNative s p i st).1 = s)
      ∧ (∀ (s : AvrcpState) p i st, (setAddressedPlayerNative s p i st).1 = s)
      ∧ (∀ (s : AvrcpState) p na ai ak st,
          (getItemElementAttributesNative s p na ai ak st).1 = s)
      ∧ (∀ (s : AvrcpState) p na ai ak st, (getElementAttributesNative s p na ai ak st).1 = s)
      ∧ (∀ (s : AvrcpState) p sc a b na ai ak st,
          (getFolderItemsNative s p sc a b na ai ak st).1 = s)
      ∧ (∀ (s : AvrcpState) p cs sl pp st, (searchNative s p cs sl pp st).1 = s)
      ∧ (∀ (s : AvrcpState) p a b st, (getSearchListNative s p a b st).1 = s)
      ∧ (∀ (s : AvrcpState) p sc up uc st, (addToNowPlayingNative s p sc up uc st).1 = s)
      ∧ (∀ (s : AvrcpState) p sc up uc na ai ak st,
          (getItemAttributesNative s p sc up uc na ai ak st).1 = s)
      ∧ (∀ (s : AvrcpState) p sc st, (getTotalNumOfItemsNative s p sc st).1 = s)
      ∧ (∀ (s : AvrcpState) p st, (fetchPlayerApplicationSettingNative s p st).1 = s)
      ∧ (∀ (s : AvrcpState) p pd st, (requestContinuingResponseNative s p pd st).1 = s)
      ∧ (∀ (s : AvrcpState) p pd st, (abortContinuingResponseNative s p pd st).1 = s)
      ∧ (∀ (s : AvrcpState) p st, (disconnectNative s p st).1 = s)
      ∧ (∀ (v : VendorState), (bredrcleanupNative v).1 = v)
      ∧ (∀ (v : VendorState) b, (setWifiStateNative v b).1 = v)
      ∧ (∀ (v : VendorState) pa pb hr, (getProfileInfoNative v pa pb hr).1 = v)
      ∧ (∀ (v : VendorState) p, (getLinkKeyNative v p).1 = v) := by
  refine ⟨?_, ?_, ?_, ?_, ?_, ?_, ?_, ?_, ?_, ?_, ?_, ?_, ?_, ?_, ?_, ?_, ?_, ?_,
    ?_, ?_, ?_, ?_, ?_, ?_, ?_, ?_, ?_, ?_, ?_⟩ <;> intros <;> rfl

/-- C9: the four attribute-fetch commands log and return without any HAL call
when `numAttr` exceeds `BTRC_MAX_ELEM_ATTR_SIZE`, in every module state and
for every pin outcome. -/
theorem C9_numAttr_guard :
    ∀ (s : AvrcpState) (addrPin uidPin attrIds : Option (List Int)) (attrPinOk : Bool)
      (numAttr scope start finish uidCounter : Int) (st : Nat),
      BTRC_MAX_ELEM_ATTR_SIZE < numAttr →
      (getItemElementAttributesNative s addrPin numAttr attrIds attrPinOk st).2.halCalls = []
        ∧ (getElementAttributesNative s addrPin numAttr attrIds attrPinOk st).2.halCalls = []
        ∧ (getFolderItemsNative s addrPin scope start finish numAttr attrIds
            attrPinOk st).2.halCalls = []
        ∧ (getItemAttributesNative s addrPin scope uidPin uidCounter numAttr attrIds
            attrPinOk st).2.halCalls = [] := by
  intro s ap up ai ak na sc a b uc st h
  refine ⟨?_, ?_, ?_, ?_⟩
  · cases hv : s.sBluetoothAvrcpVendorInterface
    · simp [getItemElementAttributesNative, hv]
    · cases ap with
      | none => simp [getItemElementAttributesNative, hv]
      | some a0 => simp [getItemElementAttributesNative, hv, h]
  · cases hv : s.sBluetoothAvrcpVendorInterface
    · simp [getElementAttributesNative, hv]
    · cases ap with
      | none => simp [getElementAttributesNative, hv]
      | some a0 => simp [getElementAttributesNative, hv, h]
  · cases hv : s.sBluetoothAvrcpVendorInterface
    · simp [getFolderItemsNative, hv]
    · cases ap with
      | none => simp [getFolderItemsNative, hv]
      | some a0 => simp [getFolderItemsNative, hv, h]
  · cases hv : s.sBluetoothAvrcpVendorInterface
    · simp [getItemAttributesNative, hv]
    · cases ap with
      | none => simp [getItemAttributesNative, hv]
      | some a0 =>
        cases up with
        | none => simp [getItemAttributesNative, hv]
        | some u0 => simp [getItemAttributesNative, hv, h]

/-- Witness for C9 at `numAttr = 8 > BTRC_MAX_ELEM_ATTR_SIZE = 7`. -/
theorem C9_numAttr_guard_witness :
    BTRC_MAX_ELEM_ATTR_SIZE < 8
      ∧ (getItemElementAttributesNative ⟨true, true, true⟩ (some [0, 0, 0, 0, 0, 0]) 8
          (some [1, 2, 3, 4, 5, 6, 7, 8]) true 0).2.halCalls = [] :=
  ⟨by decide,
    (C9_numAttr_guard ⟨true, true, true⟩ (some [0, 0, 0, 0, 0, 0]) none
      (some [1, 2, 3, 4, 5, 6, 7, 8]) true 8 0 0 0 0 0 (by decide)).1⟩

/-- C2 counterexample: the claim says that whenever a binding call returns a
null pointer the function logs and returns as a no-op, with no Java method
called with the null value and no HAL call made with it.  Three unchecked
binding results violate this at the concrete inputs below.  First and second
conjuncts: `searchNative` does not test the `GetStringUTFChars` result and,
with the vendor interface set and the address pinned, passes the NULL pattern
pointer straight to the HAL `search_cmd`.  Third conjunct: in the media case
of `btavrcp_get_folder_items_callback` the per-attribute `NewStringUTF`
result is not tested (the null test at line 456 re-tests `uidByteArray`), so
when it fails the function neither logs nor returns: it stores the null
element and still calls the media factory and the handler.  Fourth conjunct:
`get_link_key_callback` does not test the `NewStringUTF` result wrapping
`create_link_key_string` and invokes `onGetLinkKey` with the null string. -/
theorem C2_unchecked_null_results :
    (searchNative ⟨true, true, true⟩ (some [1, 2, 3, 4, 5, 6]) 106 4 none 0).2.halCalls
        = [HalCall.search_cmd [1, 2, 3, 4, 5, 6] 106 4 none]
      ∧ (searchNative ⟨true, true, true⟩ (some [1, 2, 3, 4, 5, 6]) 106 4 none
          0).2.halCalls ≠ []
      ∧ btavrcp_get_folder_items_callback
          ⟨true, true, fun _ => true, fun _ => true, fun _ => true, fun _ => true,
            fun _ _ => false, fun _ => true, fun _ => true, fun _ => true,
            fun _ => true, fun _ => true, fun _ => true⟩ 7
          [BtrcItem.media ⟨[1], 0, "m", [⟨5, "txt"⟩]⟩]
          = FolderItemsResult.handled
              [JavaCtorCall.mediaItem [1] 0 "m" [5] [none]]
              (FolderHandler.folderRsp 7)
      ∧ get_link_key_callback true (some [1, 2, 3, 4, 5, 6]) true (List.range 16) 3
          true false
          = some ⟨none, [1, 2, 3, 4, 5, 6], true, 3⟩ := by
  exact ⟨by decide, by decide, by decide, by decide⟩

/-- C2 amended: in every native-to-Java callback and every outbound command,
whenever a binding call whose result the code tests returns a null pointer,
the function logs and returns as a no-op: the pending Java call or HAL call is
not made and the null value flows nowhere.  Three binding results are not
tested and flow onward (exhibited by the counterexample):
`searchNative`'s `GetStringUTFChars`, the per-attribute `NewStringUTF` of the
folder-items media case (its null test re-tests `uidByteArray`), and the
`NewStringUTF` wrapping `create_link_key_string` whose result
`get_link_key_callback` forwards; the unchecked `FindClass` results are
observable only through the already-tested `NewObjectArray` allocations they
feed.  Conjunct 1: a completed `btavrcp_get_folder_items_callback` certifies
the environment, the item array allocation and every checked per-item site
(so a null at any of those sites means the handler was never invoked);
conjuncts 2-5: the attribute-response, the two player-app-setting and the
link-key callbacks call into Java only when all their checked allocations
succeeded; conjuncts 6-28: likewise for every remaining callback of both
translation units; the remaining conjuncts: every outbound command makes no
HAL call when any of its `GetByteArrayElements` / `GetIntArrayElements` pins
fails (`bredrcleanupNative`, `setWifiStateNative` and `getProfileInfoNative`
perform no binding call at all). -/
theorem C2_checked_null_results_are_noops :
    (∀ (e : FolderItemsEnv) (status : Nat) (items : List BtrcItem)
        (ctors : List JavaCtorCall) (hdl : FolderHandler),
      btavrcp_get_folder_items_callback e status items
          = FolderItemsResult.handled ctors hdl →
        e.envValid = true ∧ e.itemArrayOk = true
          ∧ ∀ j, j < items.length → itemChecksOk e j (items.getD j (BtrcItem.unknown 0)))
      ∧ (∀ (ev ao io so : Bool) (sok : Nat → Bool) (addr : List Nat)
          (attrs : List ElemAttrVal) (m : AttrRspMethod),
        (btavrcp_attr_rsp_callback ev ao io so sok addr attrs m).isSome = true →
          ev = true ∧ ao = true ∧ io = true ∧ so = true
            ∧ ∀ j, j < attrs.length → sok j = true)
      ∧ (∀ (ev ao ab : Bool) (addr : List Nat) (attrs : List BtrcPlayerAppAttr),
          (btavrcp_playerapplicationsetting_callback ev ao ab addr attrs).isSome
              = true → ev = true ∧ ao = true ∧ ab = true)
      ∧ (∀ (ev ao ab : Bool) (addr : List Nat) (p : BtrcPlayerSettings),
          (btavrcp_playerapplicationsetting_changed_callback ev ao ab addr p).isSome
              = true → ev = true ∧ ao = true ∧ ab = true)
      ∧ (∀ (ev : Bool) (a : List Nat) (kf : Bool) (key : List Nat) (kt : Int)
          (ao so : Bool),
          (get_link_key_callback ev (some a) kf key kt ao so).isSome = true →
            ev = true ∧ ao = true)
      ∧ (∀ (ev ao : Bool) (a : List Nat) (id pressed : Int),
          (btavrcp_passthrough_response_callback ev ao a id pressed).isSome = true →
            ev = true ∧ ao = true)
      ∧ (∀ (ev : Bool) (id pressed : Int),
          (btavrcp_groupnavigation_response_callback ev id pressed).isSome = true →
            ev = true)
      ∧ (∀ (ev ao rc br : Bool) (a : List Nat),
          (btavrcp_connection_state_callback ev ao rc br a).isSome = true →
            ev = true ∧ ao = true)
      ∧ (∀ (ev ao : Bool) (a : List Nat) (ft : Int),
          (btavrcp_get_rcfeatures_callback ev ao a ft).isSome = true →
            ev = true ∧ ao = true)
      ∧ (∀ (ev ao : Bool) (a : List Nat) (acc : Nat),
          (btavrcp_setplayerapplicationsetting_rsp_callback ev ao a acc).isSome
              = true → ev = true ∧ ao = true)
      ∧ (∀ (ev ao : Bool) (a : List Nat) (av lb : Nat),
          (btavrcp_set_abs_vol_cmd_callback ev ao a av lb).isSome = true →
            ev = true ∧ ao = true)
      ∧ (∀ (ev ao : Bool) (a : List Nat) (lb : Nat),
          (btavrcp_register_notification_absvol_callback ev ao a lb).isSome = true →
            ev = true ∧ ao = true)
      ∧ (∀ (ev ao : Bool) (a : List Nat) (sl sp : Nat),
          (btavrcp_play_position_changed_callback ev ao a sl sp).isSome = true →
            ev = true ∧ ao = true)
      ∧ (∀ (ev ao : Bool) (a : List Nat) (ps : Nat),
          (btavrcp_play_status_changed_callback ev ao a ps).isSome = true →
            ev = true ∧ ao = true)
      ∧ (∀ (ev : Bool) (ct : Nat),
          (btavrcp_change_path_callback ev ct).isSome = true → ev = true)
      ∧ (∀ (ev : Bool) (ni dp : Nat),
          (btavrcp_set_browsed_player_callback ev ni dp).isSome = true → ev = true)
      ∧ (∀ (ev : Bool) (stt : Nat),
          (btavrcp_set_addressed_player_callback ev stt).isSome = true → ev = true)
      ∧ (∀ (ev ao : Bool) (a : List Nat) (ft : Int) (cp : Nat),
          (btavrcp_get_vendor_rcfeatures_callback ev ao a ft cp).isSome = true →
            ev = true ∧ ao = true)
      ∧ (∀ (ev ao : Bool) (a : List Nat) (uc : Nat),
          (btavrcp_uids_changed_callback ev ao a uc).isSome = true →
            ev = true ∧ ao = true)
      ∧ (∀ (ev : Bool) (stt uc ni : Nat),
          (btavrcp_search_response_callback ev stt uc ni).isSome = true → ev = true)
      ∧ (∀ (ev : Bool) (stt uc ni : Nat),
          (btavrcp_num_of_items_rsp_callback ev stt uc ni).isSome = true → ev = true)
      ∧ (∀ (ev ao : Bool) (a : List Nat) (pid uc : Nat),
          (btavrcp_addressed_player_update_callback ev ao a pid uc).isSome = true →
            ev = true ∧ ao = true)
      ∧ (∀ (ev ao : Bool) (a : List Nat),
          (btavrcp_available_player_changed_callback ev ao a).isSome = true →
            ev = true ∧ ao = true)
      ∧ (∀ (ev ao : Bool) (a : List Nat),
          (btavrcp_now_playing_changed_callback ev ao a).isSome = true →
            ev = true ∧ ao = true)
      ∧ (∀ (ev : Bool) (stt : Nat),
          (btavrcp_add_to_now_playing_callback ev stt).isSome = true → ev = true)
      ∧ (∀ (ev : Bool) (opc idc stt : Nat),
          (btavrcp_error_status_code_callback ev opc idc stt).isSome = true →
            ev = true)
      ∧ (∀ (ev stt : Bool),
          (bredr_cleanup_callback ev stt).isSome = true → ev = true)
      ∧ (∀ (ev ao : Bool) (a : List Nat) (x1 x2 x3 x4 x5 x6 x7 x8 x9 : Nat),
          (iot_device_broadcast_callback ev ao a x1 x2 x3 x4 x5 x6 x7 x8 x9).isSome
              = true → ev = true ∧ ao = true)
      ∧ (∀ (s : AvrcpState) (kc ks : Int) (st : Nat),
          (sendPassThroughCommandNative s none kc ks st).2.halCalls = [])
      ∧ (∀ (s : AvrcpState) (kc ks : Int) (st : Nat),
          (sendGroupNavigationCommandNative s none kc ks st).2.halCalls = [])
      ∧ (∀ (s : AvrcpState) (na : Int) (ap avp : Option (List Int)) (st : Nat),
          (setPlayerApplicationSettingValuesNative s none na ap avp st).2.halCalls = [])
      ∧ (∀ (s : AvrcpState) (a : List Int) (na : Int) (ap avp : Option (List Int))
          (st : Nat), ap = none ∨ avp = none →
          (setPlayerApplicationSettingValuesNative s (some a) na ap avp
            st).2.halCalls = [])
      ∧ (∀ (s : AvrcpState) (av lb : Int) (st : Nat),
          (sendAbsVolRspNative s none av lb st).2.halCalls = [])
      ∧ (∀ (s : AvrcpState) (rt av lb : Int) (st : Nat),
          (sendRegisterAbsVolRspNative s none rt av lb st).2.halCalls = [])
      ∧ (∀ (s : AvrcpState) (st : Nat),
          (getPlaybackStateNative s none st).2.halCalls = [])
      ∧ (∀ (s : AvrcpState) (x y : Int) (st : Nat),
          (getNowPlayingListNative s none x y st).2.halCalls = [])
      ∧ (∀ (s : AvrcpState) (x y : Int) (st : Nat),
          (getFolderListNative s none x y st).2.halCalls = [])
      ∧ (∀ (s : AvrcpState) (x y : Int) (st : Nat),
          (getPlayerListNative s none x y st).2.halCalls = [])
      ∧ (∀ (s : AvrcpState) (uc dr : Int) (up : Option (List Int)) (st : Nat),
          (changeFolderPathNative s none uc dr up st).2.halCalls = [])
      ∧ (∀ (s : AvrcpState) (a : List Int) (uc dr : Int) (st : Nat),
          (changeFolderPathNative s (some a) uc dr none st).2.halCalls = [])
      ∧ (∀ (s : AvrcpState) (sc : Int) (up : Option (List Int)) (uc : Int) (st : Nat),
          (playItemNative s none sc up uc st).2.halCalls = [])
      ∧ (∀ (s : AvrcpState) (a : List Int) (sc uc : Int) (st : Nat),
          (playItemNative s (some a) sc none uc st).2.halCalls = [])
      ∧ (∀ (s : AvrcpState) (i : Int) (st : Nat),
          (setBrowsedPlayerNative s none i st).2.halCalls = [])
      ∧ (∀ (s : AvrcpState) (i : Int) (st : Nat),
          (setAddressedPlayerNative s none i st).2.halCalls = [])
      ∧ (∀ (s : AvrcpState) (na : Int) (ai : Option (List Int)) (ak : Bool) (st : Nat),
          (getItemElementAttributesNative s none na ai ak st).2.halCalls = [])
      ∧ (∀ (s : AvrcpState) (a : List Int) (na : Int) (l : List Int) (st : Nat),
          0 < na →
          (getItemElementAttributesNative s (some a) na (some l) false
            st).2.halCalls = [])
      ∧ (∀ (s : AvrcpState) (na : Int) (ai : Option (List Int)) (ak : Bool) (st : Nat),
          (getElementAttributesNative s none na ai ak st).2.halCalls = [])
      ∧ (∀ (s : AvrcpState) (a : List Int) (na : Int) (l : List Int) (st : Nat),
          0 < na →
          (getElementAttributesNative s (some a) na (some l) false st).2.halCalls = [])
      ∧ (∀ (s : AvrcpState) (sc x y na : Int) (ai : Option (List Int)) (ak : Bool)
          (st : Nat),
          (getFolderItemsNative s none sc x y na ai ak st).2.halCalls = [])
      ∧ (∀ (s : AvrcpState) (a : List Int) (sc x y na : Int) (l : List Int) (st : Nat),
          0 < na →
          (getFolderItemsNative s (some a) sc x y na (some l) false st).2.halCalls = [])
      ∧ (∀ (s : AvrcpState) (cs sl : Int) (pat : Option String) (st : Nat),
          (searchNative s none cs sl pat st).2.halCalls = [])
      ∧ (∀ (s : AvrcpState) (x y : Int) (st : Nat),
          (getSearchListNative s none x y st).2.halCalls = [])
      ∧ (∀ (s : AvrcpState) (sc : Int) (up : Option (List Int)) (uc : Int) (st : Nat),
          (addToNowPlayingNative s none sc up uc st).2.halCalls = [])
      ∧ (∀ (s : AvrcpState) (a : List Int) (sc uc : Int) (st : Nat),
          (addToNowPlayingNative s (some a) sc none uc st).2.halCalls = [])
      ∧ (∀ (s : AvrcpState) (sc : Int) (up : Option (List Int)) (uc na : Int)
          (ai : Option (List Int)) (ak : Bool) (st : Nat),
          (getItemAttributesNative s none sc up uc na ai ak st).2.halCalls = [])
      ∧ (∀ (s : AvrcpState) (a : List Int) (sc uc na : Int) (ai : Option (List Int))
          (ak : Bool) (st : Nat),
          (getItemAttributesNative s (some a) sc none uc na ai ak st).2.halCalls = [])
      ∧ (∀ (s : AvrcpState) (a u : List Int) (sc uc na : Int) (l : List Int)
          (st : Nat), 0 < na →
          (getItemAttributesNative s (some a) sc (some u) uc na (some l) false
            st).2.halCalls = [])
      ∧ (∀ (s : AvrcpState) (sc : Int) (st : Nat),
          (getTotalNumOfItemsNative s none sc st).2.halCalls = [])
      ∧ (∀ (s : AvrcpState) (st : Nat),
          (fetchPlayerApplicationSettingNative s none st).2.halCalls = [])
      ∧ (∀ (s : AvrcpState) (pd : Int) (st : Nat),
          (requestContinuingResponseNative s none pd st).2.halCalls = [])
      ∧ (∀ (s : AvrcpState) (pd : Int) (st : Nat),
          (abortContinuingResponseNative s none pd st).2.halCalls = [])
      ∧ (∀ (s : AvrcpState) (st : Nat),
          (disconnectNative s none st).2.halCalls = [])
      ∧ (∀ (v : VendorState), (getLinkKeyNative v none).2.halCalls = []) := by
  refine ⟨?_, ?_, ?_, ?_, ?_, ?_, ?_, ?_, ?_, ?_, ?_, ?_, ?_, ?_, ?_, ?_, ?_, ?_,
    ?_, ?_, ?_, ?_, ?_, ?_, ?_, ?_, ?_, ?_, ?_, ?_, ?_, ?_, ?_, ?_, ?_, ?_, ?_, ?_,
    ?_, ?_, ?_, ?_, ?_, ?_, ?_, ?_, ?_, ?_, ?_, ?_, ?_, ?_, ?_, ?_, ?_, ?_, ?_, ?_,
    ?_, ?_, ?_, ?_, ?_⟩
  · intro e status items ctors hdl heq
    have hev : e.envValid = true := by
      by_contra hc; rw [Bool.not_eq_true] at hc
      simp [btavrcp_get_folder_items_callback, hc] at heq
    have hia : e.itemArrayOk = true := by
      by_contra hc; rw [Bool.not_eq_true] at hc
      simp [btavrcp_get_folder_items_callback, hev, hc] at heq
    refine ⟨hev, hia, ?_⟩
    cases items with
    | nil =>
      intro j hj
      simp at hj
    | cons a t =>
      intro j hj
      simp only [btavrcp_get_folder_items_callback, hev, hia, Bool.not_true,
        Bool.false_eq_true, if_false] at heq
      cases hloop : folderItemsLoop e (a :: t) 0 [] a.isPlayer with
      | mk cs2 ob =>
        rw [hloop] at heq
        cases ob with
        | none => simp at heq
        | some b =>
          have hchk := folderItemsLoop_completes_checks e (a :: t) 0 [] a.isPlayer
            cs2 b hloop j hj
          simpa using hchk
  · intro ev ao io so sok addr attrs m h
    have hev : ev = true := by
      by_contra hc; rw [Bool.not_eq_true] at hc
      simp [btavrcp_attr_rsp_callback, hc] at h
    have hao : ao = true := by
      by_contra hc; rw [Bool.not_eq_true] at hc
      simp [btavrcp_attr_rsp_callback, hev, hc] at h
    have hio : io = true := by
      by_contra hc; rw [Bool.not_eq_true] at hc
      simp [btavrcp_attr_rsp_callback, hev, hao, hc] at h
    have hso : so = true := by
      by_contra hc; rw [Bool.not_eq_true] at hc
      simp [btavrcp_attr_rsp_callback, hev, hao, hio, hc] at h
    refine ⟨hev, hao, hio, hso, ?_⟩
    intro j hj
    cases hl : attrRspLoop sok attrs 0 [] [] with
    | none => simp [btavrcp_attr_rsp_callback, hev, hao, hio, hso, hl] at h
    | some r =>
      exact attrRspLoop_some_strOk sok attrs 0 [] [] r hl j (Nat.zero_le j)
        (by simpa using hj)
  · intro ev ao ab addr attrs h
    have hev : ev = true := by
      by_contra hc; rw [Bool.not_eq_true] at hc
      simp [btavrcp_playerapplicationsetting_callback, hc] at h
    have hao : ao = true := by
      by_contra hc; rw [Bool.not_eq_true] at hc
      simp [btavrcp_playerapplicationsetting_callback, hev, hc] at h
    have hab : ab = true := by
      by_contra hc; rw [Bool.not_eq_true] at hc
      simp [btavrcp_playerapplicationsetting_callback, hev, hao, hc] at h
    exact ⟨hev, hao, hab⟩
  · intro ev ao ab addr p h
    have hev : ev = true := by
      by_contra hc; rw [Bool.not_eq_true] at hc
      simp [btavrcp_playerapplicationsetting_changed_callback, hc] at h
    have hao : ao = true := by
      by_contra hc; rw [Bool.not_eq_true] at hc
      simp [btavrcp_playerapplicationsetting_changed_callback, hev, hc] at h
    have hab : ab = true := by
      by_contra hc; rw [Bool.not_eq_true] at hc
      simp [btavrcp_playerapplicationsetting_changed_callback, hev, hao, hc] at h
    exact ⟨hev, hao, hab⟩
  · intro ev a kf key kt ao so h
    cases ev
    · simp [get_link_key_callback] at h
    · cases ao
      · simp [get_link_key_callback] at h
      · exact ⟨rfl, rfl⟩
  · intro ev ao a id pressed h
    cases ev
    · simp [btavrcp_passthrough_response_callback] at h
    · cases ao
      · simp [btavrcp_passthrough_response_callback] at h
      · exact ⟨rfl, rfl⟩
  · intro ev id pressed h
    cases ev
    · simp [btavrcp_groupnavigation_response_callback] at h
    · rfl
  · intro ev ao rc br a h
    cases ev
    · simp [btavrcp_connection_state_callback] at h
    · cases ao
      · simp [btavrcp_connection_state_callback] at h
      · exact ⟨rfl, rfl⟩
  · intro ev ao a ft h
    cases ev
    · simp [btavrcp_get_rcfeatures_callback] at h
    · cases ao
      · simp [btavrcp_get_rcfeatures_callback] at h
      · exact ⟨rfl, rfl⟩
  · intro ev ao a acc h
    cases ev
    · simp [btavrcp_setplayerapplicationsetting_rsp_callback] at h
    · cases ao
      · simp [btavrcp_setplayerapplicationsetting_rsp_callback] at h
      · exact ⟨rfl, rfl⟩
  · intro ev ao a av lb h
    cases ev
    · simp [btavrcp_set_abs_vol_cmd_callback] at h
    · cases ao
      · simp [btavrcp_set_abs_vol_cmd_callback] at h
      · exact ⟨rfl, rfl⟩
  · intro ev ao a lb h
    cases ev
    · simp [btavrcp_register_notification_absvol_callback] at h
    · cases ao
      · simp [btavrcp_register_notification_absvol_callback] at h
      · exact ⟨rfl, rfl⟩
  · intro ev ao a sl sp h
    cases ev
    · simp [btavrcp_play_position_changed_callback] at h
    · cases ao
      · simp [btavrcp_play_position_changed_callback] at h
      · exact ⟨rfl, rfl⟩
  · intro ev ao a ps h
    cases ev
    · simp [btavrcp_play_status_changed_callback] at h
    · cases ao
      · simp [btavrcp_play_status_changed_callback] at h
      · exact ⟨rfl, rfl⟩
  · intro ev ct h
    cases ev
    · simp [btavrcp_change_path_callback] at h
    · rfl
  · intro ev ni dp h
    cases ev
    · simp [btavrcp_set_browsed_player_callback] at h
    · rfl
  · intro ev stt h
    cases ev
    · simp [btavrcp_set_addressed_player_callback] at h
    · rfl
  · intro ev ao a ft cp h
    cases ev
    · simp [btavrcp_get_vendor_rcfeatures_callback] at h
    · cases ao
      · simp [btavrcp_get_vendor_rcfeatures_callback] at h
      · exact ⟨rfl, rfl⟩
  · intro ev ao a uc h
    cases ev
    · simp [btavrcp_uids_changed_callback] at h
    · cases ao
      · simp [btavrcp_uids_changed_callback] at h
      · exact ⟨rfl, rfl⟩
  · intro ev stt uc ni h
    cases ev
    · simp [btavrcp_search_response_callback] at h
    · rfl
  · intro ev stt uc ni h
    cases ev
    · simp [btavrcp_num_of_items_rsp_callback] at h
    · rfl
  · intro ev ao a pid uc h
    cases ev
    · simp [btavrcp_addressed_player_update_callback] at h
    · cases ao
      · simp [btavrcp_addressed_player_update_callback] at h
      · exact ⟨rfl, rfl⟩
  · intro ev ao a h
    cases ev
    · simp [btavrcp_available_player_changed_callback] at h
    · cases ao
      · simp [btavrcp_available_player_changed_callback] at h
      · exact ⟨rfl, rfl⟩
  · intro ev ao a h
    cases ev
    · simp [btavrcp_now_playing_changed_callback] at h
    · cases ao
      · simp [btavrcp_now_playing_changed_callback] at h
      · exact ⟨rfl, rfl⟩
  · intro ev stt h
    cases ev
    · simp [btavrcp_add_to_now_playing_callback] at h
    · rfl
  · intro ev opc idc stt h
    cases ev
    · simp [btavrcp_error_status_code_callback] at h
    · rfl
  · intro ev stt h
    cases ev
    · simp [bredr_cleanup_callback] at h
    · rfl
  · intro ev ao a x1 x2 x3 x4 x5 x6 x7 x8 x9 h
    cases ev
    · simp [iot_device_broadcast_callback] at h
    · cases ao
      · simp [iot_device_broadcast_callback] at h
      · exact ⟨rfl, rfl⟩
  · intro s kc ks st
    cases hb : s.sBluetoothAvrcpInterface <;> simp [sendPassThroughCommandNative, hb]
  · intro s kc ks st
    cases hb : s.sBluetoothAvrcpInterface <;>
      simp [sendGroupNavigationCommandNative, hb]
  · intro s na ap avp st
    cases hb : s.sBluetoothAvrcpInterface <;>
      simp [setPlayerApplicationSettingValuesNative, hb]
  · intro s a na ap avp st h
    rcases h with rfl | rfl
    · cases avp <;> cases hb : s.sBluetoothAvrcpInterface <;>
        simp [setPlayerApplicationSettingValuesNative, hb]
    · cases ap <;> cases hb : s.sBluetoothAvrcpInterface <;>
        simp [setPlayerApplicationSettingValuesNative, hb]
  · intro s av lb st
    cases hb : s.sBluetoothAvrcpInterface <;> simp [sendAbsVolRspNative, hb]
  · intro s rt av lb st
    cases hb : s.sBluetoothAvrcpInterface <;> simp [sendRegisterAbsVolRspNative, hb]
  · intro s st
    cases hb : s.sBluetoothAvrcpInterface <;> simp [getPlaybackStateNative, hb]
  · intro s x y st
    cases hb : s.sBluetoothAvrcpInterface <;> simp [getNowPlayingListNative, hb]
  · intro s x y st
    cases hb : s.sBluetoothAvrcpInterface <;> simp [getFolderListNative, hb]
  · intro s x y st
    cases hb : s.sBluetoothAvrcpInterface <;> simp [getPlayerListNative, hb]
  · intro s uc dr up st
    cases hb : s.sBluetoothAvrcpInterface <;> simp [changeFolderPathNative, hb]
  · intro s a uc dr st
    cases hb : s.sBluetoothAvrcpInterface <;> simp [changeFolderPathNative, hb]
  · intro s sc up uc st
    cases hb : s.sBluetoothAvrcpInterface <;> simp [playItemNative, hb]
  · intro s a sc uc st
    cases hb : s.sBluetoothAvrcpInterface <;> simp [playItemNative, hb]
  · intro s i st
    cases hb : s.sBluetoothAvrcpInterface <;> simp [setBrowsedPlayerNative, hb]
  · intro s i st
    cases hb : s.sBluetoothAvrcpInterface <;> simp [setAddressedPlayerNative, hb]
  · intro s na ai ak st
    cases hv : s.sBluetoothAvrcpVendorInterface <;>
      simp [getItemElementAttributesNative, hv]
  · intro s a na l st h0
    cases hv : s.sBluetoothAvrcpVendorInterface
    · simp [getItemElementAttributesNative, hv]
    · by_cases h7 : BTRC_MAX_ELEM_ATTR_SIZE < na
      · simp [getItemElementAttributesNative, hv, h7]
      · simp [getItemElementAttributesNative, hv, h7, h0]
  · intro s na ai ak st
    cases hv : s.sBluetoothAvrcpVendorInterface <;>
      simp [getElementAttributesNative, hv]
  · intro s a na l st h0
    cases hv : s.sBluetoothAvrcpVendorInterface
    · simp [getElementAttributesNative, hv]
    · by_cases h7 : BTRC_MAX_ELEM_ATTR_SIZE < na
      · simp [getElementAttributesNative, hv, h7]
      · simp [getElementAttributesNative, hv, h7, h0]
  · intro s sc x y na ai ak st
    cases hv : s.sBluetoothAvrcpVendorInterface <;> simp [getFolderItemsNative, hv]
  · intro s a sc x y na l st h0
    cases hv : s.sBluetoothAvrcpVendorInterface
    · simp [getFolderItemsNative, hv]
    · by_cases h7 : BTRC_MAX_ELEM_ATTR_SIZE < na
      · simp [getFolderItemsNative, hv, h7]
      · simp [getFolderItemsNative, hv, h7, h0]
  · intro s cs sl pat st
    cases hv : s.sBluetoothAvrcpVendorInterface <;> simp [searchNative, hv]
  · intro s x y st
    cases hv : s.sBluetoothAvrcpVendorInterface <;> simp [getSearchListNative, hv]
  · intro s sc up uc st
    cases hv : s.sBluetoothAvrcpVendorInterface <;> simp [addToNowPlayingNative, hv]
  · intro s a sc uc st
    cases hv : s.sBluetoothAvrcpVendorInterface <;> simp [addToNowPlayingNative, hv]
  · intro s sc up uc na ai ak st
    cases hv : s.sBluetoothAvrcpVendorInterface <;> simp [getItemAttributesNative, hv]
  · intro s a sc uc na ai ak st
    cases hv : s.sBluetoothAvrcpVendorInterface <;> simp [getItemAttributesNative, hv]
  · intro s a u sc uc na l st h0
    cases hv : s.sBluetoothAvrcpVendorInterface
    · simp [getItemAttributesNative, hv]
    · by_cases h7 : BTRC_MAX_ELEM_ATTR_SIZE < na
      · simp [getItemAttributesNative, hv, h7]
      · simp [getItemAttributesNative, hv, h7, h0]
  · intro s sc st
    cases hv : s.sBluetoothAvrcpVendorInterface <;> simp [getTotalNumOfItemsNative, hv]
  · intro s st
    cases hb : s.sBluetoothAvrcpInterface <;>
      simp [fetchPlayerApplicationSettingNative, hb]
  · intro s pd st
    cases hv : s.sBluetoothAvrcpVendorInterface <;>
      simp [requestContinuingResponseNative, hv]
  · intro s pd st
    cases hv : s.sBluetoothAvrcpVendorInterface <;>
      simp [abortContinuingResponseNative, hv]
  · intro s st
    cases hv : s.sBluetoothAvrcpVendorInterface <;> simp [disconnectNative, hv]
  · intro v
    cases hv : v.sBluetoothVendorInterface <;> simp [getLinkKeyNative, hv]

/-- Witness for the amended C2: a concrete completed folder-items call, whose
completion certifies its checked binding-call sites. -/
theorem C2_checked_null_results_are_noops_witness :
    allTrueFolderItemsEnv.envValid = true ∧ allTrueFolderItemsEnv.itemArrayOk = true :=
  ⟨(C2_checked_null_results_are_noops.1 allTrueFolderItemsEnv 0 [] []
      (FolderHandler.folderRsp 0) (by decide)).1,
    (C2_checked_null_results_are_noops.1 allTrueFolderItemsEnv 0 [] []
      (FolderHandler.folderRsp 0) (by decide)).2.1⟩

/-- C3: `btavrcp_playerapplicationsetting_callback` delivers to
`handlePlayerAppSetting` a byte array whose content is the concatenation, per
attribute, of `[attr_id, num_val, value bytes]` and whose length is the sum
of `2 + num_val` over the attributes; and
`btavrcp_playerapplicationsetting_changed_callback` delivers to
`onPlayerAppSettingChanged` a byte array of length `num_attr * 2` whose
content is the concatenation, per attribute, of `[attr_id, attr_value]` —
the native values copied byte for byte. -/
theorem C3_player_app_setting_flattening :
    ∀ (ev ao ab ev2 ao2 ab2 : Bool) (addr addr2 : List Nat)
      (app_attrs : List BtrcPlayerAppAttr) (p_vals : BtrcPlayerSettings),
      ev = true → ao = true → ab = true → ev2 = true → ao2 = true → ab2 = true →
      (btavrcp_playerapplicationsetting_callback ev ao ab addr app_attrs
            = some ⟨addr, (app_attrs.map appAttrChunk).flatten,
                appSettingArrayLen app_attrs⟩
          ∧ ((app_attrs.map appAttrChunk).flatten).length = appSettingArrayLen app_attrs)
        ∧ (btavrcp_playerapplicationsetting_changed_callback ev2 ao2 ab2 addr2 p_vals
            = some ⟨addr2,
                ((List.range p_vals.num_attr).map fun j =>
                  [p_vals.attr_ids j, p_vals.attr_values j]).flatten,
                p_vals.num_attr * 2⟩
          ∧ (((List.range p_vals.num_attr).map fun j =>
              [p_vals.attr_ids j, p_vals.attr_values j]).flatten).length
              = p_vals.num_attr * 2) := by
  intro ev ao ab ev2 ao2 ab2 addr addr2 app_attrs p_vals hev hao hab hev2 hao2 hab2
  subst hev; subst hao; subst hab; subst hev2; subst hao2; subst hab2
  refine ⟨⟨?_, appAttrFlatten_length app_attrs⟩, ?_, ?_⟩
  · have h1 := appSettingLoop_spec app_attrs 0 (fun _ => 0)
      (appSettingArrayLen app_attrs) (Nat.zero_add _).symm
    rw [readN_zero, List.nil_append] at h1
    simp [btavrcp_playerapplicationsetting_callback, h1]
  · have h2 := settingsChangedLoop_spec p_vals p_vals.num_attr 0 0 (fun _ => 0)
      (p_vals.num_attr * 2) (by omega)
    rw [readN_zero, List.nil_append] at h2
    simp [btavrcp_playerapplicationsetting_changed_callback, h2,
      List.range_eq_range']
  · exact pairsFlatten_length p_vals.attr_ids p_vals.attr_values (List.range p_vals.num_attr)
      |>.trans (by rw [List.length_range]; omega)

/-- Witness for C3 with one two-valued attribute and one changed setting. -/
theorem C3_player_app_setting_flattening_witness :
    btavrcp_playerapplicationsetting_callback true true true [1, 2, 3, 4, 5, 6]
        [⟨7, 2, fun _ => 9⟩] = some ⟨[1, 2, 3, 4, 5, 6], [7, 2, 9, 9], 4⟩ :=
  ((C3_player_app_setting_flattening true true true true true true [1, 2, 3, 4, 5, 6] []
      [⟨7, 2, fun _ => 9⟩] ⟨0, fun _ => 0, fun _ => 0⟩
      rfl rfl rfl rfl rfl rfl).1.1).trans (by decide)

/-- C4: each attribute-response callback (track changed, get-element-
attributes, get-item-attributes) invokes its Java method with the device
address bytes, `num_attr`, an int array of length `num_attr` whose i-th entry
is `p_attrs[i].attr_id`, and a string array of length `num_attr` whose i-th
entry is the UTF string built from `p_attrs[i].text`. -/
theorem C4_attr_response_marshaling :
    ∀ (ev ao io so : Bool) (sok : Nat → Bool) (addr : List Nat)
      (attrs : List ElemAttrVal),
      ev = true → ao = true → io = true → so = true → (∀ j, sok j = true) →
      btavrcp_track_changed_callback ev ao io so sok addr attrs
          = some ⟨AttrRspMethod.handletrackchanged, addr, attrs.length,
              attrs.map ElemAttrVal.attr_id, attrs.map ElemAttrVal.text⟩
        ∧ btavrcp_get_elem_attr_rsp_callback ev ao io so sok addr attrs
          = some ⟨AttrRspMethod.handleGetElementAttrResp, addr, attrs.length,
              attrs.map ElemAttrVal.attr_id, attrs.map ElemAttrVal.text⟩
        ∧ btavrcp_get_item_attr_rsp_callback ev ao io so sok addr attrs
          = some ⟨AttrRspMethod.handleGetItemAttrResp, addr, attrs.length,
              attrs.map ElemAttrVal.attr_id, attrs.map ElemAttrVal.text⟩ := by
  intro ev ao io so sok addr attrs hev hao hio hso hsok
  subst hev; subst hao; subst hio; subst hso
  have hl := attrRspLoop_allOk sok hsok attrs 0 [] []
  rw [List.nil_append, List.nil_append] at hl
  refine ⟨?_, ?_, ?_⟩ <;>
    simp [btavrcp_track_changed_callback, btavrcp_get_elem_attr_rsp_callback,
      btavrcp_get_item_attr_rsp_callback, btavrcp_attr_rsp_callback, hl]

/-- Witness for C4 with two attributes. -/
theorem C4_attr_response_marshaling_witness :
    btavrcp_track_changed_callback true true true true (fun _ => true) [1, 2, 3, 4, 5, 6]
        [⟨1, "Song"⟩, ⟨2, "Artist"⟩]
      = some ⟨AttrRspMethod.handletrackchanged, [1, 2, 3, 4, 5, 6], 2, [1, 2],
          ["Song", "Artist"]⟩ :=
  ((C4_attr_response_marshaling true true true true (fun _ => true) [1, 2, 3, 4, 5, 6]
      [⟨1, "Song"⟩, ⟨2, "Artist"⟩] rfl rfl rfl rfl fun _ => rfl).1).trans (by decide)

/-- C5: with every binding call succeeding, and a listing that is exclusive
(all players, or no player at all) as the code comment states the HAL
guarantees, `btavrcp_get_folder_items_callback` translates each item through
the factory matching its item type and then invokes exactly one of the two
handlers: `handleGetPlayerItemsRsp` for a player listing, otherwise
`handleGetFolderItemsRsp` with the status — decided by the first element's
item type. -/
theorem C5_folder_items_dispatch :
    ∀ (e : FolderItemsEnv) (status : Nat) (items : List BtrcItem),
      e.allOk →
      (∀ x ∈ items, x.isKnown = true) →
      ((∀ x ∈ items, x.isPlayer = true) ∨ (∀ x ∈ items, x.isPlayer = false)) →
      btavrcp_get_folder_items_callback e status items
        = FolderItemsResult.handled (ctorsOfItems items)
            (if (match items with | [] => false | item :: _ => item.isPlayer)
              then FolderHandler.playerRsp else FolderHandler.folderRsp status) := by
  intro e status items hok hknown hhomog
  have h1 := hok.1
  have h2 := hok.2.1
  cases items with
  | nil =>
    simp [btavrcp_get_folder_items_callback, h1, h2, folderItemsLoop, ctorsOfItems]
  | cons a t =>
    have hloop := folderItemsLoop_allOk e hok (a :: t) 0 [] a.isPlayer
    simp only [btavrcp_get_folder_items_callback, h1, h2, Bool.not_true,
      Bool.false_eq_true, if_false]
    rw [hloop]
    rcases hhomog with hall | hnone
    · have ha : a.isPlayer = true := hall a (by simp)
      simp [ha]
    · have ha : a.isPlayer = false := hnone a (by simp)
      have ht : (a :: t).any BtrcItem.isPlayer = false := by
        simp only [List.any_eq_false]
        intro x hx
        simp [hnone x hx]
      simp [ha, ht]

/-- Witness for C5: a pure player listing dispatches to the player handler. -/
theorem C5_folder_items_dispatch_witness :
    btavrcp_get_folder_items_callback allTrueFolderItemsEnv 4
        [BtrcItem.player ⟨3, 1, 2, [0, 0], "p"⟩]
      = FolderItemsResult.handled
          [JavaCtorCall.playerItem 3 "p" [0, 0] 2 1] FolderHandler.playerRsp :=
  (C5_folder_items_dispatch allTrueFolderItemsEnv 4 [BtrcItem.player ⟨3, 1, 2, [0, 0], "p"⟩]
      ⟨rfl, rfl, fun _ => rfl, fun _ => rfl, fun _ => rfl, fun _ => rfl, fun _ _ => rfl,
        fun _ => rfl, fun _ => rfl, fun _ => rfl, fun _ => rfl, fun _ => rfl, fun _ => rfl⟩
      (by decide) (Or.inl (by decide))).trans (by decide)

/-- C8: after every complete execution of `initNative` or `cleanupNative` of
the AVRCP controller binding, `sBluetoothAvrcpInterface` and
`sBluetoothAvrcpVendorInterface` are both NULL or both non-NULL: `initNative`
preserves the pairing from any prior state (first conjunct), establishes it
outright whenever the Bluetooth module is loaded (second conjunct) — indeed
every failure path past that point nulls both while full success sets both
(third conjunct) — and `cleanupNative` preserves it (fourth conjunct); every
outbound operation leaves the pointers untouched and so preserves the pairing
(remaining conjuncts, shown for every outbound command of the module). -/
theorem C8_interface_pairing :
    ∀ (s : AvrcpState) (e : InitEnv) (btOk : Bool),
      (pairInv s → pairInv (initNative s e))
        ∧ (e.btInfOk = true → pairInv (initNative s e))
        ∧ (e.btInfOk = true →
            initNative s e = ⟨true, true, true⟩
              ∨ ((initNative s e).sBluetoothAvrcpInterface = false
                  ∧ (initNative s e).sBluetoothAvrcpVendorInterface = false))
        ∧ (pairInv s → pairInv (cleanupNative s btOk))
        ∧ (∀ p kc ks st, pairInv s → pairInv (sendPassThroughCommandNative s p kc ks st).1)
        ∧ (∀ p kc ks st, pairInv s → pairInv (sendGroupNavigationCommandNative s p kc ks st).1)
        ∧ (∀ p na ap avp st, pairInv s →
            pairInv (setPlayerApplicationSettingValuesNative s p na ap avp st).1)
        ∧ (∀ p av lb st, pairInv s → pairInv (sendAbsVolRspNative s p av lb st).1)
        ∧ (∀ p rt av lb st, pairInv s → pairInv (sendRegisterAbsVolRspNative s p rt av lb st).1)
        ∧ (∀ p st, pairInv s → pairInv (getPlaybackStateNative s p st).1)
        ∧ (∀ p a b st, pairInv s → pairInv (getNowPlayingListNative s p a b st).1)
        ∧ (∀ p a b st, pairInv s → pairInv (getFolderListNative s p a b st).1)
        ∧ (∀ p a b st, pairInv s → pairInv (getPlayerListNative s p a b st).1)
        ∧ (∀ p uc dr up st, pairInv s → pairInv (changeFolderPathNative s p uc dr up st).1)
        ∧ (∀ p sc up uc st, pairInv s → pairInv (playItemNative s p sc up uc st).1)
        ∧ (∀ p i st, pairInv s → pairInv (setBrowsedPlayerNative s p i st).1)
        ∧ (∀ p i st, pairInv s → pairInv (setAddressedPlayerNative s p i st).1)
        ∧ (∀ p na ai ak st, pairInv s →
            pairInv (getItemElementAttributesNative s p na ai ak st).1)
        ∧ (∀ p na ai ak st, pairInv s → pairInv (getElementAttributesNative s p na ai ak st).1)
        ∧ (∀ p sc a b na ai ak st, pairInv s →
            pairInv (getFolderItemsNative s p sc a b na ai ak st).1)
        ∧ (∀ p cs sl pp st, pairInv s → pairInv (searchNative s p cs sl pp st).1)
        ∧ (∀ p a b st, pairInv s → pairInv (getSearchListNative s p a b st).1)
        ∧ (∀ p sc up uc st, pairInv s → pairInv (addToNowPlayingNative s p sc up uc st).1)
        ∧ (∀ p sc up uc na ai ak st, pairInv s →
            pairInv (getItemAttributesNative s p sc up uc na ai ak st).1)
        ∧ (∀ p sc st, pairInv s → pairInv (getTotalNumOfItemsNative s p sc st).1)
        ∧ (∀ p st, pairInv s → pairInv (fetchPlayerApplicationSettingNative s p st).1)
        ∧ (∀ p pd st, pairInv s → pairInv (requestContinuingResponseNative s p pd st).1)
        ∧ (∀ p pd st, pairInv s → pairInv (abortContinuingResponseNative s p pd st).1)
        ∧ (∀ p st, pairInv s → pairInv (disconnectNative s p st).1) := by
  intro s e btOk
  have hinit : pairInv s → pairInv (initNative s e) := by
    intro h
    by_cases hbt : e.btInfOk = true
    · rcases initNative_bothness s e hbt with heq | ⟨ha, hb⟩
      · rw [heq]
        exact rfl
      · unfold pairInv
        rw [ha, hb]
    · rw [Bool.not_eq_true] at hbt
      have heq : initNative s e = s := by
        unfold initNative
        simp [hbt]
      rw [heq]
      exact h
  have hinit2 : e.btInfOk = true → pairInv (initNative s e) := by
    intro hbt
    rcases initNative_bothness s e hbt with heq | ⟨ha, hb⟩
    · rw [heq]
      exact rfl
    · unfold pairInv
      rw [ha, hb]
  refine ⟨hinit, hinit2, initNative_bothness s e, cleanupNative_bothness s btOk,
    ?_, ?_, ?_, ?_, ?_, ?_, ?_, ?_, ?_, ?_, ?_, ?_, ?_, ?_, ?_, ?_, ?_, ?_, ?_,
    ?_, ?_, ?_, ?_, ?_, ?_⟩ <;> · intros; assumption

/-- Witness for C8: from the all-NULL state, a fully successful `initNative`
reaches the all-set state and the pairing holds. -/
theorem C8_interface_pairing_witness :
    pairInv ⟨false, false, false⟩
      ∧ pairInv (initNative ⟨false, false, false⟩ ⟨true, true, 0, true, 0⟩)
      ∧ pairInv (cleanupNative ⟨true, true, true⟩ true) :=
  ⟨rfl,
    (C8_interface_pairing ⟨false, false, false⟩ ⟨true, true, 0, true, 0⟩ true).2.1 rfl,
    (C8_interface_pairing ⟨true, true, true⟩ ⟨true, true, 0, true, 0⟩ true).2.2.2.1 rfl⟩

/-- C10: `get_link_key_callback` with a NULL `bd_addr` makes no Java call
(first conjunct); `create_link_key_string` applied to a 16-byte link key is a
32-character string (second conjunct) of uppercase hexadecimal digits (third
conjunct) that decodes back to exactly the key bytes in order (fourth
conjunct); and the link key delivered to `onGetLinkKey` is exactly the string
`create_link_key_string` produced (fifth conjunct). -/
theorem C10_link_key_hex :
    ∀ (key : List Nat), key.length = 16 → (∀ b ∈ key, b < 256) →
      (∀ (ev kf : Bool) (kt : Int) (ao so : Bool),
          get_link_key_callback ev none kf key kt ao so = none)
        ∧ (create_link_key_string key).length = 32
        ∧ (∀ c ∈ (create_link_key_string key).data, isUpperHexChar c = true)
        ∧ (∀ i, i < 16 →
            16 * hexVal ((create_link_key_string key).data.getD (2 * i) 'x')
                + hexVal ((create_link_key_string key).data.getD (2 * i + 1) 'x')
              = key.getD i 0)
        ∧ (∀ (ev ao : Bool) (a : List Nat) (kf : Bool) (kt : Int),
            ev = true → ao = true →
            get_link_key_callback ev (some a) kf key kt ao true
              = some ⟨some (create_link_key_string key), a, kf, kt⟩) := by
  intro key h16 hb
  refine ⟨?_, ?_, ?_, ?_, ?_⟩
  · intro ev kf kt ao so
    cases ev <;> simp [get_link_key_callback]
  · show (String.mk _).length = 32
    simp only [String.length, create_link_key_string]
    rw [hexPairs_length, h16]
  · intro c hc
    simp only [create_link_key_string] at hc
    rw [List.mem_flatten] at hc
    obtain ⟨chunk, hchunk, hcin⟩ := hc
    rw [List.mem_map] at hchunk
    obtain ⟨b, hbk, rfl⟩ := hchunk
    have hb256 := hb b hbk
    simp only [List.mem_cons, List.not_mem_nil, or_false] at hcin
    rcases hcin with rfl | rfl
    · exact (hexPair_spec b hb256).2.1
    · exact (hexPair_spec b hb256).2.2
  · intro i hi
    have hik : i < key.length := by omega
    have hgd := hexPairs_getD 'x' key i hik
    have hbi : key.getD i 0 < 256 := by
      rw [List.getD_eq_getElem?_getD, List.getElem?_eq_getElem hik]
      exact hb _ (List.getElem_mem hik)
    simp only [create_link_key_string] at *
    rw [hgd.1, hgd.2]
    exact (hexPair_spec _ hbi).1
  · intro ev ao a kf kt hev hao
    subst hev; subst hao
    simp [get_link_key_callback]

/-- Witness for C10 at the concrete link key `00 01 ... 0F`. -/
theorem C10_link_key_hex_witness :
    (List.range 16).length = 16
      ∧ (create_link_key_string (List.range 16)).length = 32
      ∧ create_link_key_string (List.range 16) = "000102030405060708090A0B0C0D0E0F" :=
  ⟨by decide, (C10_link_key_hex (List.range 16) (by decide) (by decide)).2.1,
    by decide⟩

end BtJni
